import Mathlib

/-!
Verification of the Carrie backend core components, shallowly embedded from
the Python source:

* `RateLimiter` (src/backend/middleware/rate_limiter.py): sliding-window
  admission control keyed by client identity, with lazy per-identity pruning
  and a periodic global stale-entry sweep.
* The voice-session turn aggregator (src/backend/services/langfuse_tracing.py):
  `create_voice_trace`, `add_voice_generation`, `_flush_turn`, `end_voice_trace`.
* The streaming answer coordinator (src/backend/services/streaming_agent.py
  `stream_answer` and src/backend/routes/ask.py `generate`).
* The upload job ledger writers (src/backend/routes/upload/pdf.py and
  src/backend/routes/upload/youtube.py).

Python dicts are modelled as association lists with unique keys, list
mutation as functional update, `time.time()` values as integers (only
subtraction and order on timestamps are used, so any ordered time axis gives
the same behavior; integers keep every definition kernel-computable), and any
exception raised by an external collaborator as an explicit parameter of the
embedding.
-/

/-! ### Association-list model of Python dicts

Keys are looked up with `List.lookup`.  `dictSet` models `d[k] = v`
(replaces the value in place, appends a fresh key at the end, like dict
insertion order), `dictErase` models `del d[k]`. -/

def dictSet {α : Type} (l : List (String × α)) (k : String) (v : α) : List (String × α) :=
  match l with
  | [] => [(k, v)]
  | (k₁, v₁) :: rest => if k₁ = k then (k, v) :: rest else (k₁, v₁) :: dictSet rest k v

def dictErase {α : Type} (l : List (String × α)) (k : String) : List (String × α) :=
  l.filter (fun p => p.1 ≠ k)

/-- Keys of an association list are pairwise distinct (true of every Python dict). -/
abbrev KeysNodup {α : Type} (l : List (String × α)) : Prop :=
  (l.map Prod.fst).Nodup

theorem lookup_cons_self {α : Type} (l : List (String × α)) (k : String) (v : α) :
    List.lookup k ((k, v) :: l) = some v := by
  simp [List.lookup]

theorem lookup_cons_ne {α : Type} (l : List (String × α)) (k j : String) (v : α)
    (hj : j ≠ k) : List.lookup j ((k, v) :: l) = List.lookup j l := by
  have hb : (j == k) = false := beq_eq_false_iff_ne.mpr hj
  simp [List.lookup, hb]

theorem lookup_dictSet_self {α : Type} (l : List (String × α)) (k : String) (v : α) :
    List.lookup k (dictSet l k v) = some v := by
  induction l with
  | nil => simp [dictSet, List.lookup]
  | cons p rest ih =>
    obtain ⟨k₁, v₁⟩ := p
    by_cases h : k₁ = k
    · simp [dictSet, h, lookup_cons_self]
    · rw [dictSet, if_neg h, lookup_cons_ne _ _ _ _ (Ne.symm h)]
      exact ih

theorem lookup_dictSet_ne {α : Type} (l : List (String × α)) (k j : String) (v : α)
    (hj : j ≠ k) : List.lookup j (dictSet l k v) = List.lookup j l := by
  induction l with
  | nil => simp [dictSet, lookup_cons_ne _ _ _ _ hj]
  | cons p rest ih =>
    obtain ⟨k₁, v₁⟩ := p
    by_cases h : k₁ = k
    · subst h
      rw [dictSet, if_pos rfl, lookup_cons_ne _ _ _ _ hj, lookup_cons_ne _ _ _ _ hj]
    · by_cases hk : j = k₁
      · subst hk
        rw [dictSet, if_neg h, lookup_cons_self, lookup_cons_self]
      · rw [dictSet, if_neg h, lookup_cons_ne _ _ _ _ hk, lookup_cons_ne _ _ _ _ hk]
        exact ih

theorem dictErase_cons_self {α : Type} (l : List (String × α)) (k : String) (v : α) :
    dictErase ((k, v) :: l) k = dictErase l k := by
  simp [dictErase, List.filter_cons]

theorem dictErase_cons_ne {α : Type} (l : List (String × α)) (k k₁ : String) (v : α)
    (h : k₁ ≠ k) : dictErase ((k₁, v) :: l) k = (k₁, v) :: dictErase l k := by
  simp [dictErase, List.filter_cons, h]

theorem lookup_dictErase_self {α : Type} (l : List (String × α)) (k : String) :
    List.lookup k (dictErase l k) = none := by
  induction l with
  | nil => simp [dictErase]
  | cons p rest ih =>
    obtain ⟨k₁, v₁⟩ := p
    by_cases h : k₁ = k
    · subst h
      rw [dictErase_cons_self]
      exact ih
    · rw [dictErase_cons_ne _ _ _ _ h, lookup_cons_ne _ _ _ _ (Ne.symm h)]
      exact ih

theorem lookup_dictErase_ne {α : Type} (l : List (String × α)) (k j : String)
    (hj : j ≠ k) : List.lookup j (dictErase l k) = List.lookup j l := by
  induction l with
  | nil => simp [dictErase]
  | cons p rest ih =>
    obtain ⟨k₁, v₁⟩ := p
    by_cases h : k₁ = k
    · subst h
      rw [dictErase_cons_self, lookup_cons_ne _ _ _ _ hj]
      exact ih
    · by_cases hk : j = k₁
      · subst hk
        rw [dictErase_cons_ne _ _ _ _ h, lookup_cons_self, lookup_cons_self]
      · rw [dictErase_cons_ne _ _ _ _ h, lookup_cons_ne _ _ _ _ hk,
          lookup_cons_ne _ _ _ _ hk]
        exact ih

theorem lookup_append_ne {α : Type} (l : List (String × α)) (k j : String) (v : α)
    (hj : j ≠ k) : List.lookup j (l ++ [(k, v)]) = List.lookup j l := by
  induction l with
  | nil =>
    rw [List.nil_append, lookup_cons_ne _ _ _ _ hj]
  | cons p rest ih =>
    obtain ⟨k₁, v₁⟩ := p
    by_cases hk : j = k₁
    · subst hk
      rw [List.cons_append, lookup_cons_self, lookup_cons_self]
    · rw [List.cons_append, lookup_cons_ne _ _ _ _ hk, lookup_cons_ne _ _ _ _ hk]
      exact ih

theorem lookup_isSome_iff_mem_keys {α : Type} (l : List (String × α)) (j : String) :
    (List.lookup j l).isSome = true ↔ j ∈ l.map Prod.fst := by
  induction l with
  | nil => simp [List.lookup]
  | cons p rest ih =>
    obtain ⟨k₁, v₁⟩ := p
    by_cases hk : j = k₁
    · subst hk
      simp [lookup_cons_self]
    · rw [lookup_cons_ne _ _ _ _ hk]
      simp only [List.map_cons, List.mem_cons]
      rw [ih]
      tauto

theorem lookup_eq_none_of_not_mem_keys {α : Type} (l : List (String × α)) (j : String)
    (h : j ∉ l.map Prod.fst) : List.lookup j l = none := by
  cases hl : List.lookup j l with
  | none => rfl
  | some v =>
    exfalso
    exact h ((lookup_isSome_iff_mem_keys l j).mp (by simp [hl]))

theorem mem_keys_dictSet {α : Type} (l : List (String × α)) (k j : String) (v : α) :
    j ∈ (dictSet l k v).map Prod.fst ↔ j ∈ l.map Prod.fst ∨ j = k := by
  induction l with
  | nil => simp [dictSet]
  | cons p rest ih =>
    obtain ⟨k₁, v₁⟩ := p
    by_cases h : k₁ = k
    · subst h
      simp [dictSet]
      tauto
    · simp [dictSet, h, ih]
      tauto

theorem keysNodup_dictSet {α : Type} (l : List (String × α)) (k : String) (v : α)
    (h : KeysNodup l) : KeysNodup (dictSet l k v) := by
  induction l with
  | nil => simp [dictSet, KeysNodup]
  | cons p rest ih =>
    obtain ⟨k₁, v₁⟩ := p
    rw [KeysNodup, List.map_cons, List.nodup_cons] at h
    by_cases hk : k₁ = k
    · subst hk
      rw [KeysNodup, dictSet, if_pos rfl, List.map_cons, List.nodup_cons]
      exact ⟨h.1, h.2⟩
    · rw [KeysNodup, dictSet, if_neg hk, List.map_cons, List.nodup_cons]
      constructor
      · intro hmem
        rcases (mem_keys_dictSet rest k k₁ v).mp hmem with h₁ | h₁
        · exact h.1 h₁
        · exact hk h₁
      · exact ih h.2

theorem keysNodup_dictErase {α : Type} (l : List (String × α)) (k : String)
    (h : KeysNodup l) : KeysNodup (dictErase l k) := by
  rw [KeysNodup]
  have hsub : (dictErase l k).map Prod.fst |>.Sublist (l.map Prod.fst) :=
    (List.filter_sublist l).map Prod.fst
  exact h.sublist hsub

theorem keysNodup_append_new {α : Type} (l : List (String × α)) (k : String) (v : α)
    (h : KeysNodup l) (hk : List.lookup k l = none) : KeysNodup (l ++ [(k, v)]) := by
  rw [KeysNodup, List.map_append]
  simp only [List.map_cons, List.map_nil]
  rw [List.nodup_append]
  refine ⟨h, List.nodup_singleton k, ?_⟩
  intro a ha hb
  simp only [List.mem_singleton] at hb
  subst hb
  have := (lookup_isSome_iff_mem_keys l a).mpr ha
  rw [hk] at this
  simp at this

/-! ### Admission controller: `RateLimiter` (src/backend/middleware/rate_limiter.py)

Timestamps (`time.time()` floats) are modelled as rationals.  The registry
`self.requests : dict[str, list[float]]` becomes an association list. -/

structure RateLimiter where
  requests_per_minute : Nat
  window_seconds : ℤ
  requests : List (String × List ℤ)
  last_cleanup : ℤ
deriving DecidableEq

/-- `RateLimiter.__init__`: `window_seconds` is fixed to 60, the registry starts
empty, and `last_cleanup` records the construction time. -/
def RateLimiter.init (requests_per_minute : Nat) (now : ℤ) : RateLimiter :=
  { requests_per_minute := requests_per_minute
    window_seconds := 60
    requests := []
    last_cleanup := now }

/-- The timestamp sequence currently stored for an identity (empty when the
identity has no registry entry). -/
def storedList (s : RateLimiter) (client_ip : String) : List ℤ :=
  (List.lookup client_ip s.requests).getD []

/-- `RateLimiter._cleanup_old_requests`: drop this identity's timestamps that
are at or before `current_time - window_seconds`; delete the entry if the
filtered list is empty. -/
def cleanup_old_requests (s : RateLimiter) (client_ip : String) (current_time : ℤ) :
    RateLimiter :=
  match List.lookup client_ip s.requests with
  | none => s
  | some ts =>
    if (ts.filter (fun t => decide (current_time - s.window_seconds < t))).isEmpty then
      { s with requests := dictErase s.requests client_ip }
    else
      { s with requests := (dictSet s.requests client_ip
          (ts.filter (fun t => decide (current_time - s.window_seconds < t)))) }

/-- `RateLimiter._cleanup_stale_entries`: at most once per `window_seconds`,
filter every known identity with the same cutoff and drop identities whose
sequence becomes empty, then record the sweep time. -/
def cleanup_stale_entries (s : RateLimiter) (current_time : ℤ) : RateLimiter :=
  if current_time - s.last_cleanup < s.window_seconds then s
  else
    let cutoff := current_time - s.window_seconds
    { s with
      requests :=
        ((s.requests.map (fun p => (p.1, p.2.filter (fun t => decide (cutoff < t))))).filter
          (fun p => !p.2.isEmpty))
      last_cleanup := current_time }

structure RateLimitError where
  status_code : Nat
  detail : String
  retry_after : Nat
deriving DecidableEq

inductive CheckResult
  | allow
  | reject (e : RateLimitError)
deriving DecidableEq

def CheckResult.isAllow : CheckResult → Bool
  | CheckResult.allow => true
  | CheckResult.reject _ => false

/-- `dict.setdefault(k, [])`: insert an empty entry at the end when the key is
absent; the value associated with the key afterwards is unchanged when present. -/
def setdefaultEmpty (l : List (String × List ℤ)) (k : String) : List (String × List ℤ) :=
  if (List.lookup k l).isSome then l else l ++ [(k, [])]

/-- `RateLimiter.check_rate_limit`: run the periodic sweep, prune this
identity, then reject with HTTP 429 and a literal `Retry-After: 60` header if
the surviving count has reached `requests_per_minute`, otherwise record the
call.  `client_requests = self.requests.setdefault(client_ip, [])` both reads
the surviving sequence and inserts an empty entry when the identity is absent,
so the post-`setdefault` state is modelled explicitly before the branch. -/
def check_rate_limit (s : RateLimiter) (client_ip : String) (current_time : ℤ) :
    CheckResult × RateLimiter :=
  let s₁ := cleanup_stale_entries s current_time
  let s₂ := cleanup_old_requests s₁ client_ip current_time
  let client_requests := storedList s₂ client_ip
  let s₃ := { s₂ with requests := setdefaultEmpty s₂.requests client_ip }
  if s₂.requests_per_minute ≤ client_requests.length then
    (CheckResult.reject
      { status_code := 429
        detail := "Rate limit exceeded. Maximum " ++ toString s₂.requests_per_minute ++
          " requests per minute."
        retry_after := 60 }, s₃)
  else
    (CheckResult.allow,
      { s₃ with requests := dictSet s₃.requests client_ip (client_requests ++ [current_time]) })

/-- A sequence of admission checks: each event is an identity paired with the
wall-clock time of the call; the output annotates each event with whether it
was admitted. -/
def runChecks (s : RateLimiter) : List (String × ℤ) → List ((String × ℤ) × Bool) × RateLimiter
  | [] => ([], s)
  | e :: rest =>
    let r := check_rate_limit s e.1 e.2
    let rr := runChecks r.2 rest
    ((e, r.1.isAllow) :: rr.1, rr.2)

/-- Times of the admitted requests of one identity, in order. -/
def admittedTimes (client_ip : String) (out : List ((String × ℤ) × Bool)) : List ℤ :=
  out.filterMap (fun p => if p.2 && (p.1.1 == client_ip) then some p.1.2 else none)

theorem lookup_append_self_of_none {α : Type} (l : List (String × α)) (k : String) (v : α)
    (h : List.lookup k l = none) : List.lookup k (l ++ [(k, v)]) = some v := by
  induction l with
  | nil => simp [List.lookup]
  | cons p rest ih =>
    obtain ⟨k₁, v₁⟩ := p
    by_cases hk : k = k₁
    · subst hk
      rw [lookup_cons_self] at h
      exact absurd h (by simp)
    · rw [lookup_cons_ne _ _ _ _ hk] at h
      rw [List.cons_append, lookup_cons_ne _ _ _ _ hk]
      exact ih h

theorem cleanup_stale_requests_per_minute (s : RateLimiter) (u : ℤ) :
    (cleanup_stale_entries s u).requests_per_minute = s.requests_per_minute := by
  unfold cleanup_stale_entries
  split <;> rfl

theorem cleanup_stale_window_seconds (s : RateLimiter) (u : ℤ) :
    (cleanup_stale_entries s u).window_seconds = s.window_seconds := by
  unfold cleanup_stale_entries
  split <;> rfl

theorem cleanup_old_requests_per_minute (s : RateLimiter) (ip : String) (u : ℤ) :
    (cleanup_old_requests s ip u).requests_per_minute = s.requests_per_minute := by
  unfold cleanup_old_requests
  split
  · rfl
  · split <;> rfl

theorem cleanup_old_window_seconds (s : RateLimiter) (ip : String) (u : ℤ) :
    (cleanup_old_requests s ip u).window_seconds = s.window_seconds := by
  unfold cleanup_old_requests
  split
  · rfl
  · split <;> rfl

/-- The registry state in `check_rate_limit` right after the two cleanups. -/
def afterCleanups (s : RateLimiter) (client_ip : String) (current_time : ℤ) : RateLimiter :=
  cleanup_old_requests (cleanup_stale_entries s current_time) client_ip current_time

theorem afterCleanups_requests_per_minute (s : RateLimiter) (ip : String) (u : ℤ) :
    (afterCleanups s ip u).requests_per_minute = s.requests_per_minute := by
  rw [afterCleanups, cleanup_old_requests_per_minute, cleanup_stale_requests_per_minute]

theorem afterCleanups_window_seconds (s : RateLimiter) (ip : String) (u : ℤ) :
    (afterCleanups s ip u).window_seconds = s.window_seconds := by
  rw [afterCleanups, cleanup_old_window_seconds, cleanup_stale_window_seconds]

theorem cleanup_stale_skip (s : RateLimiter) (u : ℤ)
    (h : u - s.last_cleanup < s.window_seconds) : cleanup_stale_entries s u = s := by
  unfold cleanup_stale_entries
  rw [if_pos h]

theorem mem_keys_sweep (l : List (String × List ℤ)) (c : ℤ) (j : String)
    (h : j ∈ ((l.map (fun p => (p.1, p.2.filter (fun t => decide (c < t))))).filter
      (fun p => !p.2.isEmpty)).map Prod.fst) : j ∈ l.map Prod.fst := by
  obtain ⟨p, hp, hpj⟩ := List.mem_map.mp h
  have hp' := List.mem_of_mem_filter hp
  obtain ⟨q, hq, hqp⟩ := List.mem_map.mp hp'
  refine List.mem_map.mpr ⟨q, hq, ?_⟩
  rw [← hpj, ← hqp]

theorem lookup_sweep (l : List (String × List ℤ)) (c : ℤ) (j : String)
    (hnd : KeysNodup l) :
    (List.lookup j ((l.map (fun p => (p.1, p.2.filter (fun t => decide (c < t))))).filter
      (fun p => !p.2.isEmpty))).getD []
      = ((List.lookup j l).getD []).filter (fun t => decide (c < t)) := by
  induction l with
  | nil => simp
  | cons p rest ih =>
    obtain ⟨k, v⟩ := p
    rw [KeysNodup, List.map_cons, List.nodup_cons] at hnd
    have ihr := ih hnd.2
    by_cases hj : j = k
    · subst hj
      by_cases hv : (v.filter (fun t => decide (c < t))).isEmpty
      · rw [List.map_cons, List.filter_cons]
        simp only [hv, Bool.not_true]
        rw [if_neg (by simp)]
        have hnone : List.lookup j ((rest.map
            (fun p => (p.1, p.2.filter (fun t => decide (c < t))))).filter
            (fun p => !p.2.isEmpty)) = none := by
          apply lookup_eq_none_of_not_mem_keys
          intro hmem
          exact hnd.1 (mem_keys_sweep rest c j hmem)
        rw [hnone, lookup_cons_self]
        simp only [Option.getD_some, Option.getD_none]
        exact (List.isEmpty_iff.mp hv).symm
      · rw [List.map_cons, List.filter_cons]
        simp only [hv, Bool.not_false]
        rw [if_pos (by trivial)]
        rw [lookup_cons_self, lookup_cons_self]
        rfl
    · rw [List.map_cons, List.filter_cons]
      by_cases hv : (v.filter (fun t => decide (c < t))).isEmpty
      · simp only [hv, Bool.not_true]
        rw [if_neg (by simp)]
        rw [lookup_cons_ne _ _ _ _ hj, ihr]
      · simp only [hv, Bool.not_false]
        rw [if_pos (by trivial)]
        rw [lookup_cons_ne _ _ _ _ hj, lookup_cons_ne _ _ _ _ hj, ihr]

theorem lookup_sweep_none_iff (l : List (String × List ℤ)) (c : ℤ) (j : String)
    (hnd : KeysNodup l) :
    (List.lookup j ((l.map (fun p => (p.1, p.2.filter (fun t => decide (c < t))))).filter
      (fun p => !p.2.isEmpty)) = none)
      ↔ ((List.lookup j l).getD []).filter (fun t => decide (c < t)) = [] := by
  induction l with
  | nil => simp
  | cons p rest ih =>
    obtain ⟨k, v⟩ := p
    rw [KeysNodup, List.map_cons, List.nodup_cons] at hnd
    have ihr := ih hnd.2
    by_cases hj : j = k
    · subst hj
      by_cases hv : (v.filter (fun t => decide (c < t))).isEmpty
      · rw [List.map_cons, List.filter_cons]
        simp only [hv, Bool.not_true]
        rw [if_neg (by simp)]
        have hnone : List.lookup j ((rest.map
            (fun p => (p.1, p.2.filter (fun t => decide (c < t))))).filter
            (fun p => !p.2.isEmpty)) = none := by
          apply lookup_eq_none_of_not_mem_keys
          intro hmem
          exact hnd.1 (mem_keys_sweep rest c j hmem)
        rw [hnone, lookup_cons_self]
        simp only [Option.getD_some, true_iff]
        exact List.isEmpty_iff.mp hv
      · rw [List.map_cons, List.filter_cons]
        simp only [hv, Bool.not_false]
        rw [if_pos (by trivial)]
        rw [lookup_cons_self, lookup_cons_self]
        simp only [Option.getD_some]
        constructor
        · intro h
          exact absurd h (by simp)
        · intro h
          rw [h] at hv
          simp [List.isEmpty] at hv
    · rw [List.map_cons, List.filter_cons]
      by_cases hv : (v.filter (fun t => decide (c < t))).isEmpty
      · simp only [hv, Bool.not_true]
        rw [if_neg (by simp)]
        rw [lookup_cons_ne _ _ _ _ hj, ihr]
      · simp only [hv, Bool.not_false]
        rw [if_pos (by trivial)]
        rw [lookup_cons_ne _ _ _ _ hj, lookup_cons_ne _ _ _ _ hj, ihr]

theorem stored_cleanup_stale_run (s : RateLimiter) (u : ℤ) (j : String)
    (hnd : KeysNodup s.requests) (h : ¬(u - s.last_cleanup < s.window_seconds)) :
    storedList (cleanup_stale_entries s u) j
      = (storedList s j).filter (fun t => decide (u - s.window_seconds < t)) := by
  unfold cleanup_stale_entries
  rw [if_neg h]
  exact lookup_sweep s.requests (u - s.window_seconds) j hnd

theorem stored_cleanup_old_self (s : RateLimiter) (ip : String) (u : ℤ) :
    storedList (cleanup_old_requests s ip u) ip
      = (storedList s ip).filter (fun t => decide (u - s.window_seconds < t)) := by
  unfold cleanup_old_requests
  cases h : List.lookup ip s.requests with
  | none =>
    dsimp only
    simp only [storedList, h]
    simp
  | some ts =>
    dsimp only
    by_cases he : (ts.filter (fun t => decide (u - s.window_seconds < t))).isEmpty
    · rw [if_pos he]
      simp only [storedList, h]
      rw [lookup_dictErase_self]
      simp [List.isEmpty_iff.mp he]
    · rw [if_neg he]
      simp only [storedList, h]
      rw [lookup_dictSet_self]
      rfl

theorem lookup_cleanup_old_other (s : RateLimiter) (ip j : String) (u : ℤ)
    (hj : j ≠ ip) :
    List.lookup j (cleanup_old_requests s ip u).requests = List.lookup j s.requests := by
  unfold cleanup_old_requests
  cases h : List.lookup ip s.requests with
  | none => rfl
  | some ts =>
    dsimp only
    by_cases he : (ts.filter (fun t => decide (u - s.window_seconds < t))).isEmpty
    · rw [if_pos he]
      exact lookup_dictErase_ne _ _ _ hj
    · rw [if_neg he]
      exact lookup_dictSet_ne _ _ _ _ hj

theorem stored_cleanup_old_other (s : RateLimiter) (ip j : String) (u : ℤ)
    (hj : j ≠ ip) : storedList (cleanup_old_requests s ip u) j = storedList s j := by
  rw [storedList, storedList, lookup_cleanup_old_other s ip j u hj]

theorem keysNodup_cleanup_old (s : RateLimiter) (ip : String) (u : ℤ)
    (hnd : KeysNodup s.requests) : KeysNodup (cleanup_old_requests s ip u).requests := by
  unfold cleanup_old_requests
  cases h : List.lookup ip s.requests with
  | none => exact hnd
  | some ts =>
    dsimp only
    by_cases he : (ts.filter (fun t => decide (u - s.window_seconds < t))).isEmpty
    · rw [if_pos he]
      exact keysNodup_dictErase _ _ hnd
    · rw [if_neg he]
      exact keysNodup_dictSet _ _ _ hnd

theorem keysNodup_cleanup_stale (s : RateLimiter) (u : ℤ)
    (hnd : KeysNodup s.requests) : KeysNodup (cleanup_stale_entries s u).requests := by
  unfold cleanup_stale_entries
  split
  · exact hnd
  · rw [KeysNodup]
    have hsub :
        (((s.requests.map (fun p => (p.1, p.2.filter
            (fun t => decide (u - s.window_seconds < t))))).filter
            (fun p => !p.2.isEmpty)).map Prod.fst).Sublist
          ((s.requests.map (fun p => (p.1, p.2.filter
            (fun t => decide (u - s.window_seconds < t))))).map Prod.fst) :=
      (List.filter_sublist _).map Prod.fst
    have hkeys :
        (s.requests.map (fun p => (p.1, p.2.filter
            (fun t => decide (u - s.window_seconds < t))))).map Prod.fst
          = s.requests.map Prod.fst := by
      rw [List.map_map]
      rfl
    rw [hkeys] at hsub
    exact hnd.sublist hsub

theorem keysNodup_afterCleanups (s : RateLimiter) (ip : String) (u : ℤ)
    (hnd : KeysNodup s.requests) : KeysNodup (afterCleanups s ip u).requests :=
  keysNodup_cleanup_old _ _ _ (keysNodup_cleanup_stale _ _ hnd)

theorem lookup_setdefault_self_getD (l : List (String × List ℤ)) (k : String) :
    (List.lookup k (setdefaultEmpty l k)).getD [] = (List.lookup k l).getD [] := by
  unfold setdefaultEmpty
  cases h : List.lookup k l with
  | none =>
    simp only [h, Option.isSome_none]
    rw [if_neg (by simp)]
    rw [lookup_append_self_of_none l k [] h]
    rfl
  | some v =>
    simp only [h, Option.isSome_some]
    rw [if_pos (by trivial)]
    rw [h]

theorem lookup_setdefault_other (l : List (String × List ℤ)) (k j : String)
    (hj : j ≠ k) : List.lookup j (setdefaultEmpty l k) = List.lookup j l := by
  unfold setdefaultEmpty
  split
  · rfl
  · exact lookup_append_ne l k j [] hj

theorem keysNodup_setdefault (l : List (String × List ℤ)) (k : String)
    (hnd : KeysNodup l) : KeysNodup (setdefaultEmpty l k) := by
  unfold setdefaultEmpty
  cases h : List.lookup k l with
  | none =>
    simp only [h, Option.isSome_none]
    rw [if_neg (by simp)]
    exact keysNodup_append_new l k [] hnd h
  | some v =>
    simp only [h, Option.isSome_some]
    rw [if_pos (by trivial)]
    exact hnd

theorem check_isAllow_iff (s : RateLimiter) (ip : String) (u : ℤ) :
    (check_rate_limit s ip u).1.isAllow = true
      ↔ (storedList (afterCleanups s ip u) ip).length < s.requests_per_minute := by
  unfold check_rate_limit afterCleanups
  dsimp only
  by_cases hc : (cleanup_old_requests (cleanup_stale_entries s u) ip u).requests_per_minute
      ≤ (storedList (cleanup_old_requests (cleanup_stale_entries s u) ip u) ip).length
  · rw [if_pos hc]
    rw [cleanup_old_requests_per_minute, cleanup_stale_requests_per_minute] at hc
    simp only [CheckResult.isAllow]
    constructor
    · intro h
      exact absurd h (by simp)
    · intro h
      exact absurd hc (not_le.mpr h)
  · rw [if_neg hc]
    rw [cleanup_old_requests_per_minute, cleanup_stale_requests_per_minute] at hc
    simp only [CheckResult.isAllow, true_iff]
    exact not_le.mp hc

theorem check_snd_requests_per_minute (s : RateLimiter) (ip : String) (u : ℤ) :
    (check_rate_limit s ip u).2.requests_per_minute = s.requests_per_minute := by
  unfold check_rate_limit
  dsimp only
  split
  · exact (cleanup_old_requests_per_minute _ _ _).trans (cleanup_stale_requests_per_minute _ _)
  · exact (cleanup_old_requests_per_minute _ _ _).trans (cleanup_stale_requests_per_minute _ _)

theorem check_snd_window_seconds (s : RateLimiter) (ip : String) (u : ℤ) :
    (check_rate_limit s ip u).2.window_seconds = s.window_seconds := by
  unfold check_rate_limit
  dsimp only
  split
  · exact (cleanup_old_window_seconds _ _ _).trans (cleanup_stale_window_seconds _ _)
  · exact (cleanup_old_window_seconds _ _ _).trans (cleanup_stale_window_seconds _ _)

theorem lookup_check_other (s : RateLimiter) (ip j : String) (u : ℤ) (hj : j ≠ ip) :
    List.lookup j (check_rate_limit s ip u).2.requests
      = List.lookup j (afterCleanups s ip u).requests := by
  unfold check_rate_limit afterCleanups
  dsimp only
  split
  · exact lookup_setdefault_other _ _ _ hj
  · rw [lookup_dictSet_ne _ _ _ _ hj]
    exact lookup_setdefault_other _ _ _ hj

theorem stored_check_other (s : RateLimiter) (ip j : String) (u : ℤ) (hj : j ≠ ip) :
    storedList (check_rate_limit s ip u).2 j = storedList (afterCleanups s ip u) j := by
  rw [storedList, storedList, lookup_check_other s ip j u hj]

theorem stored_check_self_reject (s : RateLimiter) (ip : String) (u : ℤ)
    (hc : s.requests_per_minute ≤ (storedList (afterCleanups s ip u) ip).length) :
    storedList (check_rate_limit s ip u).2 ip = storedList (afterCleanups s ip u) ip := by
  unfold check_rate_limit
  dsimp only
  rw [if_pos (by
    rw [cleanup_old_requests_per_minute, cleanup_stale_requests_per_minute]
    exact hc)]
  rw [storedList, storedList]
  dsimp only
  rw [afterCleanups] at hc ⊢
  exact lookup_setdefault_self_getD _ _

theorem stored_check_self_allow (s : RateLimiter) (ip : String) (u : ℤ)
    (hc : (storedList (afterCleanups s ip u) ip).length < s.requests_per_minute) :
    storedList (check_rate_limit s ip u).2 ip
      = storedList (afterCleanups s ip u) ip ++ [u] := by
  unfold check_rate_limit
  dsimp only
  rw [if_neg (by
    rw [cleanup_old_requests_per_minute, cleanup_stale_requests_per_minute]
    exact not_le.mpr hc)]
  rw [storedList]
  dsimp only
  rw [lookup_dictSet_self]
  rw [afterCleanups]
  rfl

theorem keysNodup_check (s : RateLimiter) (ip : String) (u : ℤ)
    (hnd : KeysNodup s.requests) : KeysNodup (check_rate_limit s ip u).2.requests := by
  have h₂ : KeysNodup (cleanup_old_requests (cleanup_stale_entries s u) ip u).requests :=
    keysNodup_cleanup_old _ _ _ (keysNodup_cleanup_stale _ _ hnd)
  unfold check_rate_limit
  dsimp only
  split
  · exact keysNodup_setdefault _ _ h₂
  · exact keysNodup_dictSet _ _ _ (keysNodup_setdefault _ _ h₂)

theorem check_reject_shape (s : RateLimiter) (ip : String) (u : ℤ) (e : RateLimitError)
    (h : (check_rate_limit s ip u).1 = CheckResult.reject e) :
    e.status_code = 429 ∧ e.retry_after = 60 := by
  unfold check_rate_limit at h
  dsimp only at h
  by_cases hc : (cleanup_old_requests (cleanup_stale_entries s u) ip u).requests_per_minute
      ≤ (storedList (cleanup_old_requests (cleanup_stale_entries s u) ip u) ip).length
  · rw [if_pos hc] at h
    dsimp only at h
    injection h with h₁
    rw [← h₁]
    exact ⟨rfl, rfl⟩
  · rw [if_neg hc] at h
    dsimp only at h
    exact absurd h (by simp)

/-- After both cleanups in a call at time `u`, the stored sequence for the
calling identity is exactly its previous sequence restricted to the window. -/
theorem stored_afterCleanups_self (s : RateLimiter) (ip : String) (u : ℤ)
    (hnd : KeysNodup s.requests) :
    storedList (afterCleanups s ip u) ip
      = (storedList s ip).filter (fun t => decide (u - s.window_seconds < t)) := by
  rw [afterCleanups]
  by_cases hskip : u - s.last_cleanup < s.window_seconds
  · rw [cleanup_stale_skip s u hskip, stored_cleanup_old_self]
  · rw [stored_cleanup_old_self]
    simp only [cleanup_stale_window_seconds]
    rw [stored_cleanup_stale_run s u ip hnd hskip]
    rw [List.filter_filter]
    refine List.filter_congr ?_
    intro t _
    rw [Bool.and_self]

/-- C5: when `check_rate_limit` rejects, the response is HTTP 429 with a
`Retry-After` header equal to `window_seconds` (60), and the rejected attempt
is not recorded: the stored timestamp sequence of the identity is unchanged.
The hypothesis `hlen` is the reachable-state bound (at most
`requests_per_minute` timestamps are ever stored per identity, proved below as
`runChecks_stored_length_le`). -/
theorem rate_limit_reject_no_record (s : RateLimiter) (ip : String) (u : ℤ)
    (e : RateLimitError)
    (hnd : KeysNodup s.requests)
    (hw : s.window_seconds = 60)
    (hlen : (storedList s ip).length ≤ s.requests_per_minute)
    (hrej : (check_rate_limit s ip u).1 = CheckResult.reject e) :
    e.status_code = 429 ∧ e.retry_after = 60 ∧ ((e.retry_after : ℤ) = s.window_seconds) ∧
      storedList (check_rate_limit s ip u).2 ip = storedList s ip := by
  obtain ⟨h429, h60⟩ := check_reject_shape s ip u e hrej
  have hnotallow : ¬((check_rate_limit s ip u).1.isAllow = true) := by
    rw [hrej]
    simp [CheckResult.isAllow]
  have hc : s.requests_per_minute ≤ (storedList (afterCleanups s ip u) ip).length := by
    by_contra hlt
    exact hnotallow ((check_isAllow_iff s ip u).mpr (not_le.mp hlt))
  have hfilter := stored_afterCleanups_self s ip u hnd
  have hsub : ((storedList s ip).filter
      (fun t => decide (u - s.window_seconds < t))).Sublist (storedList s ip) :=
    List.filter_sublist _
  have hlenfil : (storedList (afterCleanups s ip u) ip).length = (storedList s ip).length := by
    have h₁ : s.requests_per_minute ≤ (storedList (afterCleanups s ip u) ip).length := hc
    have h₂ : (storedList (afterCleanups s ip u) ip).length ≤ (storedList s ip).length := by
      rw [hfilter]
      exact hsub.length_le
    omega
  have heq : storedList (afterCleanups s ip u) ip = storedList s ip := by
    rw [hfilter]
    refine hsub.eq_of_length ?_
    rw [← hfilter]
    exact hlenfil
  refine ⟨h429, h60, ?_, ?_⟩
  · rw [h60, hw]
    norm_num
  · rw [stored_check_self_reject s ip u hc, heq]

/-- C5 witness: a saturated identity (15 fresh timestamps) is rejected at time
100 and its stored sequence is untouched. -/
theorem rate_limit_reject_no_record_witness :
    (KeysNodup (RateLimiter.mk 15 60
        [("c", [41, 42, 43, 44, 45, 46, 47, 48, 49, 50, 51, 52, 53, 54, 55])] 100).requests) ∧
    ((RateLimiter.mk 15 60
        [("c", [41, 42, 43, 44, 45, 46, 47, 48, 49, 50, 51, 52, 53, 54, 55])] 100).window_seconds = 60) ∧
    ((storedList (RateLimiter.mk 15 60
        [("c", [41, 42, 43, 44, 45, 46, 47, 48, 49, 50, 51, 52, 53, 54, 55])] 100) "c").length ≤ 15) ∧
    ((check_rate_limit (RateLimiter.mk 15 60
        [("c", [41, 42, 43, 44, 45, 46, 47, 48, 49, 50, 51, 52, 53, 54, 55])] 100) "c" 100).1
      = CheckResult.reject (RateLimitError.mk 429
          ("Rate limit exceeded. Maximum " ++ toString 15 ++ " requests per minute.") 60)) ∧
    ((RateLimitError.mk 429
        ("Rate limit exceeded. Maximum " ++ toString 15 ++ " requests per minute.") 60).status_code = 429 ∧
      (RateLimitError.mk 429
        ("Rate limit exceeded. Maximum " ++ toString 15 ++ " requests per minute.") 60).retry_after = 60 ∧
      (((RateLimitError.mk 429
        ("Rate limit exceeded. Maximum " ++ toString 15 ++ " requests per minute.") 60).retry_after : ℤ)
          = (RateLimiter.mk 15 60
        [("c", [41, 42, 43, 44, 45, 46, 47, 48, 49, 50, 51, 52, 53, 54, 55])] 100).window_seconds) ∧
      storedList (check_rate_limit (RateLimiter.mk 15 60
        [("c", [41, 42, 43, 44, 45, 46, 47, 48, 49, 50, 51, 52, 53, 54, 55])] 100) "c" 100).2 "c"
        = storedList (RateLimiter.mk 15 60
        [("c", [41, 42, 43, 44, 45, 46, 47, 48, 49, 50, 51, 52, 53, 54, 55])] 100) "c") := by
  refine ⟨by decide, rfl, by decide, by decide, ?_⟩
  exact rate_limit_reject_no_record _ "c" 100 _ (by decide) rfl (by decide) (by decide)

/-- C8: the global stale-entry sweep is a no-op unless `window_seconds` has
elapsed since the last sweep; when it runs it records the sweep time, drops
every timestamp at or before the cutoff for every known identity, and removes
exactly the identities whose sequence becomes empty; consequently an identity
all of whose timestamps are stale is absent from the registry after any
admission check (for a different identity) that triggers the sweep. -/
theorem stale_sweep_purges (s : RateLimiter) (now : ℤ) (i ip : String)
    (hnd : KeysNodup s.requests) :
    (now - s.last_cleanup < s.window_seconds → cleanup_stale_entries s now = s) ∧
    (s.window_seconds ≤ now - s.last_cleanup →
      (cleanup_stale_entries s now).last_cleanup = now ∧
      (∀ j, storedList (cleanup_stale_entries s now) j
        = (storedList s j).filter (fun t => decide (now - s.window_seconds < t))) ∧
      (∀ j, List.lookup j (cleanup_stale_entries s now).requests = none ↔
        (storedList s j).filter (fun t => decide (now - s.window_seconds < t)) = [])) ∧
    (s.window_seconds ≤ now - s.last_cleanup → i ≠ ip →
      (∀ t ∈ storedList s i, t ≤ now - s.window_seconds) →
      List.lookup i (check_rate_limit s ip now).2.requests = none) := by
  have hrun : s.window_seconds ≤ now - s.last_cleanup →
      ¬(now - s.last_cleanup < s.window_seconds) := fun h => not_lt.mpr h
  refine ⟨cleanup_stale_skip s now, ?_, ?_⟩
  · intro h
    refine ⟨?_, ?_, ?_⟩
    · unfold cleanup_stale_entries
      rw [if_neg (hrun h)]
    · intro j
      exact stored_cleanup_stale_run s now j hnd (hrun h)
    · intro j
      unfold cleanup_stale_entries
      rw [if_neg (hrun h)]
      rw [storedList]
      exact lookup_sweep_none_iff s.requests (now - s.window_seconds) j hnd
  · intro h hiip hstale
    have hfil : (storedList s i).filter (fun t => decide (now - s.window_seconds < t)) = [] := by
      rw [List.filter_eq_nil_iff]
      intro t ht
      simp only [decide_eq_true_eq, not_lt]
      exact hstale t ht
    have hstale_none : List.lookup i (cleanup_stale_entries s now).requests = none := by
      unfold cleanup_stale_entries
      rw [if_neg (hrun h)]
      rw [lookup_sweep_none_iff s.requests (now - s.window_seconds) i hnd]
      rw [storedList] at hfil
      exact hfil
    rw [lookup_check_other s ip i now hiip, afterCleanups,
      lookup_cleanup_old_other _ _ _ _ hiip]
    exact hstale_none

/-- C8 witness: at time 200, an identity whose only timestamp (100) is stale
is purged by a check for a different identity. -/
theorem stale_sweep_purges_witness :
    (KeysNodup (RateLimiter.mk 15 60 [("old", [100]), ("b", [150])] 100).requests) ∧
    ((RateLimiter.mk 15 60 [("old", [100]), ("b", [150])] 100).window_seconds ≤
      200 - (RateLimiter.mk 15 60 [("old", [100]), ("b", [150])] 100).last_cleanup) ∧
    ("old" ≠ "b") ∧
    (∀ t ∈ storedList (RateLimiter.mk 15 60 [("old", [100]), ("b", [150])] 100) "old",
      t ≤ 200 - (RateLimiter.mk 15 60 [("old", [100]), ("b", [150])] 100).window_seconds) ∧
    List.lookup "old"
      (check_rate_limit (RateLimiter.mk 15 60 [("old", [100]), ("b", [150])] 100) "b" 200).2.requests
      = none := by
  refine ⟨by decide, by decide, by decide, by decide, ?_⟩
  exact (stale_sweep_purges (RateLimiter.mk 15 60 [("old", [100]), ("b", [150])] 100)
    200 "old" "b" (by decide)).2.2 (by decide) (by decide) (by decide)

/-! ### The sliding-window invariant for C1

`pureStep`/`pureRun` form a pure reference model of the admission decision:
the decision at a call `(i, u)` depends only on the multiset of previously
admitted timestamps of `i` inside the window `(u - w, u]`.  `StoredInv`
relates a concrete `RateLimiter` state to the history `A` of admitted
timestamps: the stored sequence of every identity is its admitted history
filtered at some cutoff that lies at least one window in the past. -/

def pureStep (limit : Nat) (w : ℤ) (A : String → List ℤ) (e : String × ℤ) :
    Bool × (String → List ℤ) :=
  if limit ≤ ((A e.1).filter (fun t => decide (e.2 - w < t))).length then (false, A)
  else (true, fun j => if j = e.1 then A e.1 ++ [e.2] else A j)

def pureRun (limit : Nat) (w : ℤ) (A : String → List ℤ) :
    List (String × ℤ) → List ((String × ℤ) × Bool) × (String → List ℤ)
  | [] => ([], A)
  | e :: rest =>
    let r := pureStep limit w A e
    let rr := pureRun limit w r.2 rest
    ((e, r.1) :: rr.1, rr.2)

def StoredInv (s : RateLimiter) (A : String → List ℤ) (T : ℤ) : Prop :=
  KeysNodup s.requests ∧
  0 < s.window_seconds ∧
  (∀ i, ∃ c, c ≤ T - s.window_seconds ∧
    storedList s i = (A i).filter (fun t => decide (c < t))) ∧
  (∀ i, ∀ t ∈ A i, t ≤ T)

theorem StoredInv.mono (s : RateLimiter) (A : String → List ℤ) (T u : ℤ)
    (hTu : T ≤ u) (inv : StoredInv s A T) : StoredInv s A u := by
  obtain ⟨hnd, hw, hc, hA⟩ := inv
  refine ⟨hnd, hw, ?_, ?_⟩
  · intro i
    obtain ⟨c, hcT, hfil⟩ := hc i
    exact ⟨c, le_trans hcT (by omega), hfil⟩
  · intro i t ht
    exact le_trans (hA i t ht) hTu

theorem filter_window_filter (l : List ℤ) (c d : ℤ) :
    (l.filter (fun t => decide (c < t))).filter (fun t => decide (d < t))
      = l.filter (fun t => decide (max c d < t)) := by
  rw [List.filter_filter]
  refine List.filter_congr ?_
  intro t _
  by_cases hc : c < t <;> by_cases hd : d < t <;>
    simp [hc, hd, max_lt_iff]

theorem filter_absorb_of_le (l : List ℤ) (c d : ℤ) (hcd : c ≤ d) :
    (l.filter (fun t => decide (c < t))).filter (fun t => decide (d < t))
      = l.filter (fun t => decide (d < t)) := by
  rw [filter_window_filter]
  refine List.filter_congr ?_
  intro t _
  have : max c d = d := max_eq_right hcd
  rw [this]

/-- The other identities after the two cleanups: either untouched (sweep
skipped), or filtered at the same cutoff (sweep ran). -/
theorem stored_afterCleanups_other (s : RateLimiter) (ip j : String) (u : ℤ)
    (hnd : KeysNodup s.requests) (hj : j ≠ ip) :
    storedList (afterCleanups s ip u) j = storedList s j ∨
    storedList (afterCleanups s ip u) j
      = (storedList s j).filter (fun t => decide (u - s.window_seconds < t)) := by
  rw [afterCleanups, stored_cleanup_old_other _ _ _ _ hj]
  by_cases hskip : u - s.last_cleanup < s.window_seconds
  · left
    rw [cleanup_stale_skip s u hskip]
  · right
    exact stored_cleanup_stale_run s u j hnd hskip

/-- Inside the admission check, the surviving sequence for the calling
identity is exactly its admitted history restricted to the current window. -/
theorem stored_afterCleanups_inv (s : RateLimiter) (A : String → List ℤ) (T : ℤ)
    (i : String) (u : ℤ) (inv : StoredInv s A T) (hTu : T ≤ u) :
    storedList (afterCleanups s i u) i
      = (A i).filter (fun t => decide (u - s.window_seconds < t)) := by
  obtain ⟨hnd, hw, hc, hA⟩ := inv
  obtain ⟨c, hcT, hfil⟩ := hc i
  rw [stored_afterCleanups_self s i u hnd, hfil]
  exact filter_absorb_of_le _ _ _ (by omega)

theorem exists_cutoff_other (s : RateLimiter) (A : String → List ℤ) (u : ℤ)
    (i j : String) (hnd : KeysNodup s.requests) (hji : j ≠ i)
    (hcj : ∃ c, c ≤ u - s.window_seconds ∧
      storedList s j = (A j).filter (fun t => decide (c < t))) :
    ∃ c, c ≤ u - s.window_seconds ∧
      storedList (check_rate_limit s i u).2 j = (A j).filter (fun t => decide (c < t)) := by
  obtain ⟨c, hc, hfil⟩ := hcj
  rw [stored_check_other s i j u hji]
  rcases stored_afterCleanups_other s i j u hnd hji with h | h
  · exact ⟨c, hc, by rw [h, hfil]⟩
  · refine ⟨max c (u - s.window_seconds), max_le hc le_rfl, ?_⟩
    rw [h, hfil, filter_window_filter]

theorem check_step_sim (s : RateLimiter) (A : String → List ℤ) (T : ℤ)
    (e : String × ℤ) (inv : StoredInv s A T) (hTu : T ≤ e.2) :
    (check_rate_limit s e.1 e.2).1.isAllow
      = (pureStep s.requests_per_minute s.window_seconds A e).1 ∧
    StoredInv (check_rate_limit s e.1 e.2).2
      (pureStep s.requests_per_minute s.window_seconds A e).2 e.2 := by
  obtain ⟨i, u⟩ := e
  have invu : StoredInv s A u := StoredInv.mono s A T u hTu inv
  obtain ⟨hnd, hw, hcs, hA⟩ := invu
  have hlen : storedList (afterCleanups s i u) i
      = (A i).filter (fun t => decide (u - s.window_seconds < t)) :=
    stored_afterCleanups_inv s A u i u ⟨hnd, hw, hcs, hA⟩ le_rfl
  by_cases hdec : s.requests_per_minute
      ≤ ((A i).filter (fun t => decide (u - s.window_seconds < t))).length
  · have hflag : (check_rate_limit s i u).1.isAllow = false := by
      cases hb : (check_rate_limit s i u).1.isAllow
      · rfl
      · exfalso
        have hlt := (check_isAllow_iff s i u).mp hb
        rw [hlen] at hlt
        omega
    have hpure1 : (pureStep s.requests_per_minute s.window_seconds A (i, u)).1 = false := by
      unfold pureStep
      dsimp only
      rw [if_pos hdec]
    have hpure2 : (pureStep s.requests_per_minute s.window_seconds A (i, u)).2 = A := by
      unfold pureStep
      dsimp only
      rw [if_pos hdec]
    refine ⟨by rw [hflag, hpure1], ?_⟩
    rw [hpure2]
    refine ⟨keysNodup_check s i u hnd, ?_, ?_, ?_⟩
    · rw [check_snd_window_seconds]
      exact hw
    · intro j
      simp only [check_snd_window_seconds]
      by_cases hji : j = i
      · subst hji
        refine ⟨u - s.window_seconds, le_rfl, ?_⟩
        rw [stored_check_self_reject s j u (by rw [hlen]; exact hdec), hlen]
      · exact exists_cutoff_other s A u i j hnd hji (hcs j)
    · intro j t ht
      exact hA j t ht
  · have hflag : (check_rate_limit s i u).1.isAllow = true := by
      refine (check_isAllow_iff s i u).mpr ?_
      rw [hlen]
      omega
    have hpure1 : (pureStep s.requests_per_minute s.window_seconds A (i, u)).1 = true := by
      unfold pureStep
      dsimp only
      rw [if_neg hdec]
    have hpure2 : (pureStep s.requests_per_minute s.window_seconds A (i, u)).2
        = fun j => if j = i then A i ++ [u] else A j := by
      unfold pureStep
      dsimp only
      rw [if_neg hdec]
    refine ⟨by rw [hflag, hpure1], ?_⟩
    rw [hpure2]
    refine ⟨keysNodup_check s i u hnd, ?_, ?_, ?_⟩
    · rw [check_snd_window_seconds]
      exact hw
    · intro j
      simp only [check_snd_window_seconds]
      by_cases hji : j = i
      · subst hji
        refine ⟨u - s.window_seconds, le_rfl, ?_⟩
        rw [stored_check_self_allow s j u (by rw [hlen]; omega), hlen]
        rw [if_pos rfl, List.filter_append]
        have hu : (List.filter (fun t => decide (u - s.window_seconds < t)) [u]) = [u] := by
          have : u - s.window_seconds < u := by omega
          simp [List.filter, this]
        rw [hu]
      · obtain ⟨c, hc, hfil⟩ := exists_cutoff_other s A u i j hnd hji (hcs j)
        refine ⟨c, hc, ?_⟩
        dsimp only
        rw [hfil, if_neg hji]
    · intro j t ht
      dsimp only at ht
      by_cases hji : j = i
      · subst hji
        rw [if_pos rfl] at ht
        rcases List.mem_append.mp ht with h | h
        · exact hA j t h
        · rw [List.mem_singleton] at h
          omega
      · rw [if_neg hji] at ht
        exact hA j t ht

theorem runChecks_requests_per_minute (events : List (String × ℤ)) :
    ∀ s : RateLimiter, (runChecks s events).2.requests_per_minute = s.requests_per_minute := by
  induction events with
  | nil => intro s; rfl
  | cons e rest ih =>
    intro s
    simp only [runChecks]
    rw [ih, check_snd_requests_per_minute]

theorem runChecks_window_seconds (events : List (String × ℤ)) :
    ∀ s : RateLimiter, (runChecks s events).2.window_seconds = s.window_seconds := by
  induction events with
  | nil => intro s; rfl
  | cons e rest ih =>
    intro s
    simp only [runChecks]
    rw [ih, check_snd_window_seconds]

theorem runChecks_sim (events : List (String × ℤ)) :
    ∀ (s : RateLimiter) (A : String → List ℤ) (T : ℤ),
    StoredInv s A T → (∀ e ∈ events, T ≤ e.2) →
    events.Pairwise (fun a b => a.2 ≤ b.2) →
    (runChecks s events).1 = (pureRun s.requests_per_minute s.window_seconds A events).1 ∧
    (∀ T', T ≤ T' → (∀ e ∈ events, e.2 ≤ T') →
      StoredInv (runChecks s events).2
        (pureRun s.requests_per_minute s.window_seconds A events).2 T') := by
  induction events with
  | nil =>
    intro s A T inv _ _
    exact ⟨rfl, fun T' hT _ => StoredInv.mono s A T T' hT inv⟩
  | cons e rest ih =>
    intro s A T inv hTe hpair
    have hTe2 : T ≤ e.2 := hTe e (List.mem_cons_self e rest)
    have hstep := check_step_sim s A T e inv hTe2
    have hrest_lb : ∀ e' ∈ rest, e.2 ≤ e'.2 :=
      fun e' he' => (List.pairwise_cons.mp hpair).1 e' he'
    have hpair' := (List.pairwise_cons.mp hpair).2
    have ihx := ih (check_rate_limit s e.1 e.2).2
      (pureStep s.requests_per_minute s.window_seconds A e).2 e.2 hstep.2 hrest_lb hpair'
    rw [check_snd_requests_per_minute, check_snd_window_seconds] at ihx
    constructor
    · simp only [runChecks, pureRun]
      rw [hstep.1, ihx.1]
    · intro T' hTT' hub
      have hub' : ∀ e' ∈ rest, e'.2 ≤ T' :=
        fun e' he' => hub e' (List.mem_cons_of_mem e he')
      have hT'e : e.2 ≤ T' := hub e (List.mem_cons_self e rest)
      have hres := ihx.2 T' hT'e hub'
      simp only [runChecks, pureRun]
      exact hres

theorem pureRun_final_A (limit : Nat) (w : ℤ) (i : String) :
    ∀ (events : List (String × ℤ)) (A : String → List ℤ),
    (pureRun limit w A events).2 i = A i ++ admittedTimes i (pureRun limit w A events).1 := by
  intro events
  induction events with
  | nil => intro A; simp [pureRun, admittedTimes]
  | cons e rest ih =>
    intro A
    by_cases hdec : limit ≤ ((A e.1).filter (fun t => decide (e.2 - w < t))).length
    · have h1 : pureStep limit w A e = (false, A) := by
        unfold pureStep
        rw [if_pos hdec]
      simp only [pureRun, h1]
      rw [ih A]
      simp [admittedTimes, List.filterMap_cons]
    · have h1 : pureStep limit w A e
          = (true, fun j => if j = e.1 then A e.1 ++ [e.2] else A j) := by
        unfold pureStep
        rw [if_neg hdec]
      simp only [pureRun, h1]
      rw [ih]
      by_cases hie : i = e.1
      · subst hie
        simp [admittedTimes, List.filterMap_cons]
      · have hei : ¬e.1 = i := fun h => hie h.symm
        simp [admittedTimes, List.filterMap_cons, hie, hei]

theorem pureRun_span_le (limit : Nat) (w : ℤ) (i : String) (q : ℤ) :
    ∀ (events : List (String × ℤ)) (A : String → List ℤ),
    events.Pairwise (fun a b => a.2 ≤ b.2) →
    (∀ t ∈ A i, ∀ e ∈ events, t ≤ e.2) →
    (A i).countP (fun t => decide (q < t ∧ t ≤ q + w)) ≤ limit →
    ((pureRun limit w A events).2 i).countP (fun t => decide (q < t ∧ t ≤ q + w)) ≤ limit := by
  intro events
  induction events with
  | nil =>
    intro A _ _ h
    simpa [pureRun] using h
  | cons e rest ih =>
    intro A hpair hbound hcount
    have hrest_lb : ∀ e' ∈ rest, e.2 ≤ e'.2 :=
      fun e' he' => (List.pairwise_cons.mp hpair).1 e' he'
    have hpair' := (List.pairwise_cons.mp hpair).2
    by_cases hdec : limit ≤ ((A e.1).filter (fun t => decide (e.2 - w < t))).length
    · have h1 : pureStep limit w A e = (false, A) := by
        unfold pureStep
        rw [if_pos hdec]
      simp only [pureRun, h1]
      exact ih A hpair'
        (fun t ht e' he' => hbound t ht e' (List.mem_cons_of_mem e he')) hcount
    · have h1 : pureStep limit w A e
          = (true, fun j => if j = e.1 then A e.1 ++ [e.2] else A j) := by
        unfold pureStep
        rw [if_neg hdec]
      simp only [pureRun, h1]
      refine ih _ hpair' ?_ ?_
      · intro t ht e' he'
        by_cases hie : i = e.1
        · rw [if_pos hie] at ht
          rcases List.mem_append.mp ht with h | h
          · rw [← hie] at h
            exact hbound t h e' (List.mem_cons_of_mem e he')
          · rw [List.mem_singleton] at h
            subst h
            exact hrest_lb e' he'
        · rw [if_neg hie] at ht
          exact hbound t ht e' (List.mem_cons_of_mem e he')
      · dsimp only
        by_cases hie : i = e.1
        · rw [if_pos hie]
          rw [List.countP_append, ← hie]
          by_cases hspan : q < e.2 ∧ e.2 ≤ q + w
          · have hmon : (A i).countP (fun t => decide (q < t ∧ t ≤ q + w))
                ≤ (A i).countP (fun t => decide (e.2 - w < t)) := by
              refine List.countP_mono_left ?_
              intro t _ h
              simp only [decide_eq_true_eq] at h ⊢
              omega
            have hlt : (A i).countP (fun t => decide (e.2 - w < t)) < limit := by
              rw [List.countP_eq_length_filter]
              rw [hie]
              omega
            have hone : ([e.2].countP (fun t => decide (q < t ∧ t ≤ q + w))) ≤ 1 := by
              simp only [List.countP_cons, List.countP_nil]
              split <;> omega
            omega
          · have hzero : ([e.2].countP (fun t => decide (q < t ∧ t ≤ q + w))) = 0 := by
              simp [List.countP_cons, hspan]
            omega
        · rw [if_neg hie]
          exact hcount

theorem foldr_min_le (l : List ℤ) (b : ℤ) :
    (∀ x ∈ l, l.foldr min b ≤ x) ∧ l.foldr min b ≤ b := by
  induction l with
  | nil => simp
  | cons a t ih =>
    constructor
    · intro x hx
      rcases List.mem_cons.mp hx with h | h
      · subst h
        exact min_le_left _ _
      · exact le_trans (min_le_right _ _) (ih.1 x h)
    · exact le_trans (min_le_right _ _) ih.2

theorem storedInv_init (n : Nat) (t0 T : ℤ) :
    StoredInv (RateLimiter.init n t0) (fun _ => []) T := by
  refine ⟨?_, ?_, ?_, ?_⟩
  · simp [RateLimiter.init, KeysNodup]
  · simp [RateLimiter.init]
  · intro i
    refine ⟨T - 60, ?_, ?_⟩
    · simp [RateLimiter.init]
    · simp [storedList, RateLimiter.init, List.lookup]
  · intro i t ht
    exact absurd ht (List.not_mem_nil t)

/-- C1: for every sequence of admission checks (nondecreasing call times)
against a fresh limiter with `requests_per_minute = 15`, any 60-wide time
span `(q, q + 60]` contains at most 15 admitted requests of each identity;
and a further request of that identity inside the span, arriving when 15
requests were already admitted inside the span, is rejected. -/
theorem rate_limit_window_bound (t0 : ℤ) (events : List (String × ℤ))
    (hmono : events.Pairwise (fun a b => a.2 ≤ b.2)) (i : String) (q : ℤ) :
    (admittedTimes i (runChecks (RateLimiter.init 15 t0) events).1).countP
        (fun t => decide (q < t ∧ t ≤ q + 60)) ≤ 15 ∧
    (∀ pre u post, events = pre ++ ((i, u) :: post) → q < u → u ≤ q + 60 →
      15 ≤ (admittedTimes i (runChecks (RateLimiter.init 15 t0) pre).1).countP
        (fun t => decide (q < t ∧ t ≤ q + 60)) →
      (check_rate_limit (runChecks (RateLimiter.init 15 t0) pre).2 i u).1.isAllow
        = false) := by
  have hfield1 : (RateLimiter.init 15 t0).requests_per_minute = 15 := rfl
  have hfield2 : (RateLimiter.init 15 t0).window_seconds = 60 := rfl
  constructor
  · have hlb : ∀ e ∈ events, (events.map Prod.snd).foldr min 0 ≤ e.2 :=
      fun e he => (foldr_min_le (events.map Prod.snd) 0).1 e.2
        (List.mem_map_of_mem Prod.snd he)
    have hsim := runChecks_sim events (RateLimiter.init 15 t0) (fun _ => [])
      ((events.map Prod.snd).foldr min 0)
      (storedInv_init 15 t0 ((events.map Prod.snd).foldr min 0)) hlb hmono
    rw [hfield1, hfield2] at hsim
    rw [hsim.1]
    have hA := pureRun_final_A 15 60 i events (fun _ => [])
    rw [List.nil_append] at hA
    rw [← hA]
    refine pureRun_span_le 15 60 i q events (fun _ => []) hmono ?_ ?_
    · intro t ht
      exact absurd ht (List.not_mem_nil t)
    · simp
  · intro pre u post hevents hq1 hq2 hge
    subst hevents
    rcases List.pairwise_append.mp hmono with ⟨hpre, hpost, hcross⟩
    have hpreu : ∀ e ∈ pre, e.2 ≤ u :=
      fun e he => hcross e he (i, u) (List.mem_cons_self _ _)
    have hlb : ∀ e ∈ pre, min ((pre.map Prod.snd).foldr min 0) u ≤ e.2 :=
      fun e he => le_trans (min_le_left _ _)
        ((foldr_min_le (pre.map Prod.snd) 0).1 e.2 (List.mem_map_of_mem Prod.snd he))
    have hsim := runChecks_sim pre (RateLimiter.init 15 t0) (fun _ => [])
      (min ((pre.map Prod.snd).foldr min 0) u)
      (storedInv_init 15 t0 _) hlb hpre
    rw [hfield1, hfield2] at hsim
    have hinv := hsim.2 u (min_le_right _ _) hpreu
    have hchar := stored_afterCleanups_inv (runChecks (RateLimiter.init 15 t0) pre).2
      (pureRun 15 60 (fun _ => []) pre).2 u i u hinv le_rfl
    rw [runChecks_window_seconds, hfield2] at hchar
    have hApre : (pureRun 15 60 (fun _ => []) pre).2 i
        = admittedTimes i (runChecks (RateLimiter.init 15 t0) pre).1 := by
      have h := pureRun_final_A 15 60 i pre (fun _ => [])
      rw [List.nil_append] at h
      rw [h, hsim.1]
    have hcount : 15 ≤ ((pureRun 15 60 (fun _ => []) pre).2 i).countP
        (fun t => decide (q < t ∧ t ≤ q + 60)) := by
      rw [hApre]
      exact hge
    have hmon : ((pureRun 15 60 (fun _ => []) pre).2 i).countP
          (fun t => decide (q < t ∧ t ≤ q + 60))
        ≤ ((pureRun 15 60 (fun _ => []) pre).2 i).countP
          (fun t => decide (u - 60 < t)) := by
      refine List.countP_mono_left ?_
      intro t _ h
      simp only [decide_eq_true_eq] at h ⊢
      omega
    have hlen : 15 ≤ (storedList
        (afterCleanups (runChecks (RateLimiter.init 15 t0) pre).2 i u) i).length := by
      rw [hchar, ← List.countP_eq_length_filter]
      omega
    cases hb : (check_rate_limit (runChecks (RateLimiter.init 15 t0) pre).2 i u).1.isAllow
    · rfl
    · exfalso
      have hlt := (check_isAllow_iff _ i u).mp hb
      rw [runChecks_requests_per_minute, hfield1] at hlt
      omega

/-- C1 witness: three admitted requests of one identity inside the span
starting at 0, checked on a concrete monotone trace. -/
theorem rate_limit_window_bound_witness :
    ([(("a" : String), (1 : ℤ)), ("a", 2), ("a", 3)].Pairwise
      (fun a b => a.2 ≤ b.2)) ∧
    ((admittedTimes "a"
        (runChecks (RateLimiter.init 15 0) [("a", 1), ("a", 2), ("a", 3)]).1).countP
        (fun t => decide ((0 : ℤ) < t ∧ t ≤ 0 + 60)) ≤ 15 ∧
    (∀ pre u post,
      [(("a" : String), (1 : ℤ)), ("a", 2), ("a", 3)] = pre ++ (("a", u) :: post) →
      (0 : ℤ) < u → u ≤ 0 + 60 →
      15 ≤ (admittedTimes "a" (runChecks (RateLimiter.init 15 0) pre).1).countP
        (fun t => decide ((0 : ℤ) < t ∧ t ≤ 0 + 60)) →
      (check_rate_limit (runChecks (RateLimiter.init 15 0) pre).2 "a" u).1.isAllow
        = false)) :=
  ⟨by decide, rate_limit_window_bound 0 [("a", 1), ("a", 2), ("a", 3)] (by decide) "a" 0⟩

/-- Reachable-state bound used by `rate_limit_reject_no_record`: starting from
any state whose stored sequences are within the limit (in particular the fresh
limiter), every sequence of checks keeps every identity at no more than
`requests_per_minute` stored timestamps. -/
theorem runChecks_stored_length_le (events : List (String × ℤ)) :
    ∀ s : RateLimiter, KeysNodup s.requests →
    (∀ j, (storedList s j).length ≤ s.requests_per_minute) →
    (∀ j, (storedList (runChecks s events).2 j).length ≤ s.requests_per_minute) := by
  induction events with
  | nil =>
    intro s _ h j
    exact h j
  | cons e rest ih =>
    intro s hnd hlen j
    have hnd' : KeysNodup (check_rate_limit s e.1 e.2).2.requests :=
      keysNodup_check _ _ _ hnd
    have hlen' : ∀ j', (storedList (check_rate_limit s e.1 e.2).2 j').length
        ≤ (check_rate_limit s e.1 e.2).2.requests_per_minute := by
      intro j'
      rw [check_snd_requests_per_minute]
      by_cases hji : j' = e.1
      · subst hji
        by_cases hc : s.requests_per_minute
            ≤ (storedList (afterCleanups s e.1 e.2) e.1).length
        · rw [stored_check_self_reject _ _ _ hc, stored_afterCleanups_self _ _ _ hnd]
          exact le_trans (List.filter_sublist _).length_le (hlen e.1)
        · rw [stored_check_self_allow _ _ _ (not_le.mp hc)]
          rw [List.length_append]
          have h1 := not_le.mp hc
          simp only [List.length_singleton]
          omega
      · rw [stored_check_other _ _ _ _ hji]
        rcases stored_afterCleanups_other s e.1 j' e.2 hnd hji with h | h
        · rw [h]
          exact hlen j'
        · rw [h]
          exact le_trans (List.filter_sublist _).length_le (hlen j')
    have hres := ih (check_rate_limit s e.1 e.2).2 hnd' hlen' j
    rw [check_snd_requests_per_minute] at hres
    simp only [runChecks]
    exact hres

/-! ### Turn aggregator (src/backend/services/langfuse_tracing.py)

`_voice_sessions` is a dict from session id to a session record holding
`user_id`, `turn_count` and the mutable `current_turn` dict.  `clientInitialized`
models `_langfuse_client` being non-`None`.  Python truthiness of the stored
strings matters: `None` and `""` are both falsy, which the guards and the
`or "No input"` placeholders rely on, so it is modelled explicitly. -/

structure PendingTurn where
  user_input : Option String
  assistant_output : Option String
  function_calls : List (String × String)
deriving DecidableEq

def emptyPendingTurn : PendingTurn :=
  { user_input := none, assistant_output := none, function_calls := [] }

structure VoiceSession where
  user_id : String
  turn_count : Nat
  current_turn : PendingTurn
deriving DecidableEq

/-- The aggregated per-turn record emitted to the tracing sink by
`_flush_turn` (the langfuse trace of one voice turn, with its per-function
child spans listed in order). -/
structure Turn where
  session_id : String
  user_id : String
  turn_number : Nat
  user_input : String
  assistant_output : String
  function_calls : List (String × String)
deriving DecidableEq

structure TracingState where
  clientInitialized : Bool
  sessions : List (String × VoiceSession)
deriving DecidableEq

/-- Python truthiness of an optional string: `None` and `""` are falsy. -/
def truthy (o : Option String) : Bool :=
  match o with
  | none => false
  | some s => !(s == "")

/-- Models `x or d` on an optional string field (`turn["user_input"] or "No input"`). -/
def orPlaceholder (o : Option String) (d : String) : String :=
  match o with
  | none => d
  | some s => if s == "" then d else s

/-- Models `metadata.get("result", "") if metadata else ""`. -/
def metaResult (metadata : Option (List (String × String))) : String :=
  match metadata with
  | none => ""
  | some m => (List.lookup "result" m).getD ""

/-- `create_voice_trace`: register a fresh session (no-op when the client is
uninitialized, returning the empty trace id). -/
def create_voice_trace (st : TracingState) (session_id user_id : String) :
    TracingState × String :=
  if !st.clientInitialized then (st, "")
  else
    ({ st with sessions := (dictSet st.sessions session_id
        { user_id := user_id, turn_count := 0, current_turn := emptyPendingTurn }) },
      session_id)

/-- `_flush_turn`: increment the turn counter, emit one aggregated `Turn` with
`"No input"` / `"No output"` placeholders for falsy fields, and reset
`current_turn` to a fresh empty dict. -/
def flush_turn (st : TracingState) (session_id : String) : TracingState × List Turn :=
  match List.lookup session_id st.sessions with
  | none => (st, [])
  | some sess =>
    ({ st with sessions := (dictSet st.sessions session_id
        { user_id := sess.user_id, turn_count := sess.turn_count + 1,
          current_turn := emptyPendingTurn }) },
      [{ session_id := session_id, user_id := sess.user_id,
         turn_number := sess.turn_count + 1,
         user_input := orPlaceholder sess.current_turn.user_input "No input",
         assistant_output := orPlaceholder sess.current_turn.assistant_output "No output",
         function_calls := sess.current_turn.function_calls }])

/-- `add_voice_generation`: dispatch one voice event into the session's
current turn.  In the `user_transcript` branch, when the completed-turn guard
fires, `_flush_turn` replaces `session["current_turn"]` with a fresh dict,
while the local variable `turn` still references the replaced dict; the
subsequent `turn["user_input"] = content` therefore mutates an object no
longer reachable from the session, so the new content does not appear in the
session state. -/
def add_voice_generation (st : TracingState) (trace_id event_type content : String)
    (metadata : Option (List (String × String))) : TracingState × List Turn :=
  if !st.clientInitialized then (st, [])
  else
    match List.lookup trace_id st.sessions with
    | none => (st, [])
    | some sess =>
      let turn := sess.current_turn
      if event_type = "user_transcript" then
        if truthy turn.user_input && truthy turn.assistant_output then
          flush_turn st trace_id
        else
          ({ st with sessions := (dictSet st.sessions trace_id
              { user_id := sess.user_id, turn_count := sess.turn_count,
                current_turn := { turn with user_input := some content } }) }, [])
      else if event_type = "assistant_response" then
        let st₁ := { st with sessions := (dictSet st.sessions trace_id
            { user_id := sess.user_id, turn_count := sess.turn_count,
              current_turn := { turn with assistant_output := some content } }) }
        if truthy turn.user_input then flush_turn st₁ trace_id else (st₁, [])
      else if event_type = "function_call" then
        ({ st with sessions := (dictSet st.sessions trace_id
            { user_id := sess.user_id, turn_count := sess.turn_count,
              current_turn := { turn with function_calls :=
                turn.function_calls ++ [(content, metaResult metadata)] } }) }, [])
      else (st, [])

/-- `end_voice_trace`: flush the pending turn when it has a truthy user input
or assistant output, then remove the session (`duration_ms` and
`message_count` are only logged). -/
def end_voice_trace (st : TracingState) (trace_id : String)
    ( _duration_ms _message_count : Nat) : TracingState × List Turn :=
  if !st.clientInitialized then (st, [])
  else
    match List.lookup trace_id st.sessions with
    | none => (st, [])
    | some sess =>
      let r := if truthy sess.current_turn.user_input
            || truthy sess.current_turn.assistant_output then
          flush_turn st trace_id
        else (st, [])
      ({ r.1 with sessions := dictErase r.1.sessions trace_id }, r.2)

structure VoiceEventIn where
  trace_id : String
  event_type : String
  content : String
  metadata : Option (List (String × String))
deriving DecidableEq

def runVoiceEvents (st : TracingState) : List VoiceEventIn → TracingState × List Turn
  | [] => (st, [])
  | e :: rest =>
    let r := add_voice_generation st e.trace_id e.event_type e.content e.metadata
    let rr := runVoiceEvents r.1 rest
    (rr.1, r.2 ++ rr.2)

/-! Route handlers of src/backend/routes/voice_trace.py. -/

structure VoiceEventRequest where
  trace_id : String
  event_type : String
  content : String
  metadata : Option (List (String × String))
deriving DecidableEq

structure VoiceEventResponse where
  success : Bool
deriving DecidableEq

structure VoiceTraceEndRequest where
  trace_id : String
  duration_ms : Nat
  message_count : Nat
deriving DecidableEq

structure VoiceTraceEndResponse where
  success : Bool
deriving DecidableEq

/-- `log_voice_event` route: always reports success; drives the aggregator
only when `LANGFUSE_ENABLED`. -/
def log_voice_event (langfuse_enabled : Bool) (st : TracingState)
    (req : VoiceEventRequest) : (TracingState × List Turn) × VoiceEventResponse :=
  if !langfuse_enabled then ((st, []), { success := true })
  else (add_voice_generation st req.trace_id req.event_type req.content req.metadata,
    { success := true })

/-- `end_voice_trace_session` route: always reports success. -/
def end_voice_trace_session (langfuse_enabled : Bool) (st : TracingState)
    (req : VoiceTraceEndRequest) : (TracingState × List Turn) × VoiceTraceEndResponse :=
  if !langfuse_enabled then ((st, []), { success := true })
  else (end_voice_trace st req.trace_id req.duration_ms req.message_count,
    { success := true })

theorem dictSet_dictSet {α : Type} (l : List (String × α)) (k : String) (v w : α) :
    dictSet (dictSet l k v) k w = dictSet l k w := by
  induction l with
  | nil => simp [dictSet]
  | cons p rest ih =>
    obtain ⟨k₁, v₁⟩ := p
    by_cases h : k₁ = k
    · subst h
      rw [dictSet, if_pos rfl, dictSet, if_pos rfl, dictSet, if_pos rfl]
    · rw [dictSet, if_neg h, dictSet, if_neg h, dictSet, if_neg h, ih]

theorem add_user_transcript_no_flush (st : TracingState) (sid c : String)
    (sess : VoiceSession)
    (hcl : st.clientInitialized = true)
    (hs : List.lookup sid st.sessions = some sess)
    (hguard : (truthy sess.current_turn.user_input
      && truthy sess.current_turn.assistant_output) = false) :
    add_voice_generation st sid "user_transcript" c none
      = ({ st with sessions := (dictSet st.sessions sid
          { user_id := sess.user_id, turn_count := sess.turn_count,
            current_turn := { sess.current_turn with user_input := some c } }) }, []) := by
  unfold add_voice_generation
  rw [hcl, Bool.not_true]
  rw [if_neg (by simp)]
  rw [hs]
  dsimp only
  rw [if_pos rfl]
  rw [hguard]
  rw [if_neg (by simp)]

theorem add_user_transcript_flush (st : TracingState) (sid c : String)
    (sess : VoiceSession)
    (hcl : st.clientInitialized = true)
    (hs : List.lookup sid st.sessions = some sess)
    (hguard : (truthy sess.current_turn.user_input
      && truthy sess.current_turn.assistant_output) = true) :
    add_voice_generation st sid "user_transcript" c none
      = ({ st with sessions := (dictSet st.sessions sid
          { user_id := sess.user_id, turn_count := sess.turn_count + 1,
            current_turn := emptyPendingTurn }) },
        [{ session_id := sid, user_id := sess.user_id,
           turn_number := sess.turn_count + 1,
           user_input := orPlaceholder sess.current_turn.user_input "No input",
           assistant_output := orPlaceholder sess.current_turn.assistant_output "No output",
           function_calls := sess.current_turn.function_calls }]) := by
  unfold add_voice_generation
  rw [hcl, Bool.not_true]
  rw [if_neg (by simp)]
  rw [hs]
  dsimp only
  rw [if_pos rfl]
  rw [hguard]
  rw [if_pos rfl]
  unfold flush_turn
  rw [hs]
  dsimp only
  rw [hcl]

theorem add_assistant_response_no_flush (st : TracingState) (sid c : String)
    (sess : VoiceSession)
    (hcl : st.clientInitialized = true)
    (hs : List.lookup sid st.sessions = some sess)
    (htr : truthy sess.current_turn.user_input = false) :
    add_voice_generation st sid "assistant_response" c none
      = ({ st with sessions := (dictSet st.sessions sid
          { user_id := sess.user_id, turn_count := sess.turn_count,
            current_turn := { sess.current_turn with assistant_output := some c } }) },
        []) := by
  unfold add_voice_generation
  rw [hcl, Bool.not_true]
  rw [if_neg (by simp)]
  rw [hs]
  dsimp only
  rw [if_neg (by decide)]
  rw [if_pos rfl]
  rw [htr]
  rw [if_neg (by simp)]

theorem add_assistant_response_flush (st : TracingState) (sid c : String)
    (sess : VoiceSession)
    (hcl : st.clientInitialized = true)
    (hs : List.lookup sid st.sessions = some sess)
    (htr : truthy sess.current_turn.user_input = true) :
    add_voice_generation st sid "assistant_response" c none
      = ({ st with sessions := (dictSet st.sessions sid
          { user_id := sess.user_id, turn_count := sess.turn_count + 1,
            current_turn := emptyPendingTurn }) },
        [{ session_id := sid, user_id := sess.user_id,
           turn_number := sess.turn_count + 1,
           user_input := orPlaceholder sess.current_turn.user_input "No input",
           assistant_output := orPlaceholder (some c) "No output",
           function_calls := sess.current_turn.function_calls }]) := by
  unfold add_voice_generation
  rw [hcl, Bool.not_true]
  rw [if_neg (by simp)]
  rw [hs]
  dsimp only
  rw [if_neg (by decide)]
  rw [if_pos rfl]
  rw [htr]
  rw [if_pos rfl]
  unfold flush_turn
  rw [lookup_dictSet_self]
  dsimp only
  rw [dictSet_dictSet]

theorem add_function_call_eq (st : TracingState) (sid c : String)
    (md : Option (List (String × String))) (sess : VoiceSession)
    (hcl : st.clientInitialized = true)
    (hs : List.lookup sid st.sessions = some sess) :
    add_voice_generation st sid "function_call" c md
      = ({ st with sessions := (dictSet st.sessions sid
          { user_id := sess.user_id, turn_count := sess.turn_count,
            current_turn := { sess.current_turn with function_calls :=
              sess.current_turn.function_calls ++ [(c, metaResult md)] } }) }, []) := by
  unfold add_voice_generation
  rw [hcl, Bool.not_true]
  rw [if_neg (by simp)]
  rw [hs]
  dsimp only
  rw [if_neg (by decide)]
  rw [if_neg (by decide)]
  rw [if_pos rfl]

theorem dictSet_eq_of_lookup {α : Type} (l : List (String × α)) (k : String) (v : α)
    (h : List.lookup k l = some v) : dictSet l k v = l := by
  induction l with
  | nil => simp [List.lookup] at h
  | cons p rest ih =>
    obtain ⟨k₁, v₁⟩ := p
    by_cases hk : k₁ = k
    · subst hk
      rw [lookup_cons_self] at h
      injection h with h
      rw [dictSet, if_pos rfl, h]
    · rw [lookup_cons_ne _ _ _ _ (Ne.symm hk)] at h
      rw [dictSet, if_neg hk, ih h]

theorem orPlaceholder_some_ne (s d : String) (h : s ≠ "") :
    orPlaceholder (some s) d = s := by
  unfold orPlaceholder
  dsimp only
  rw [if_neg (by simpa using h)]

theorem runVoiceEvents_append (l₁ l₂ : List VoiceEventIn) :
    ∀ st : TracingState, runVoiceEvents st (l₁ ++ l₂)
      = ((runVoiceEvents (runVoiceEvents st l₁).1 l₂).1,
         (runVoiceEvents st l₁).2 ++ (runVoiceEvents (runVoiceEvents st l₁).1 l₂).2) := by
  induction l₁ with
  | nil =>
    intro st
    simp [runVoiceEvents]
  | cons e rest ih =>
    intro st
    rw [List.cons_append]
    simp only [runVoiceEvents]
    rw [ih]
    dsimp only
    rw [List.append_assoc]

theorem runVoice_function_call_segment (sid : String)
    (F : List (String × Option (List (String × String)))) :
    ∀ (st : TracingState) (sess : VoiceSession),
    st.clientInitialized = true →
    List.lookup sid st.sessions = some sess →
    runVoiceEvents st (F.map (fun f =>
        { trace_id := sid, event_type := "function_call", content := f.1, metadata := f.2 }))
      = ({ st with sessions := (dictSet st.sessions sid
          { user_id := sess.user_id, turn_count := sess.turn_count,
            current_turn := { sess.current_turn with function_calls :=
              sess.current_turn.function_calls ++ F.map (fun f => (f.1, metaResult f.2)) } }) },
        []) := by
  induction F with
  | nil =>
    intro st sess hcl hs
    simp only [List.map_nil, List.append_nil]
    show (st, ([] : List Turn))
      = ({ st with sessions := dictSet st.sessions sid sess }, [])
    rw [dictSet_eq_of_lookup st.sessions sid sess hs]
  | cons f F ih =>
    intro st sess hcl hs
    simp only [List.map_cons, runVoiceEvents]
    rw [add_function_call_eq st sid f.1 f.2 sess hcl hs]
    dsimp only
    have hih := ih
      (⟨st.clientInitialized, dictSet st.sessions sid
        ⟨sess.user_id, sess.turn_count,
          ⟨sess.current_turn.user_input, sess.current_turn.assistant_output,
            sess.current_turn.function_calls ++ [(f.1, metaResult f.2)]⟩⟩⟩ : TracingState)
      (⟨sess.user_id, sess.turn_count,
        ⟨sess.current_turn.user_input, sess.current_turn.assistant_output,
          sess.current_turn.function_calls ++ [(f.1, metaResult f.2)]⟩⟩ : VoiceSession)
      hcl (lookup_dictSet_self _ _ _)
    rw [hih]
    simp only [dictSet_dictSet, List.append_assoc, List.singleton_append]
    rfl

/-- C3 (amended): two consecutive `user_transcript` events with no
`assistant_response` between them do NOT produce two turns.  The flush-first
branch fires only when the pending turn already has both a truthy user input
and a truthy assistant output; otherwise (in particular right after a first
transcript) the new transcript simply overwrites the pending user input with
no Turn emitted.  When the flush-first branch does fire, exactly the old
completed turn is emitted and the incoming transcript is lost (it is written
to the replaced turn object). -/
theorem voice_double_transcript_behavior (st : TracingState) (sid c : String)
    (sess : VoiceSession)
    (hcl : st.clientInitialized = true)
    (hs : List.lookup sid st.sessions = some sess) :
    ((truthy sess.current_turn.user_input
        && truthy sess.current_turn.assistant_output) = false →
      (add_voice_generation st sid "user_transcript" c none).2 = [] ∧
      List.lookup sid (add_voice_generation st sid "user_transcript" c none).1.sessions
        = some { user_id := sess.user_id, turn_count := sess.turn_count, current_turn := { sess.current_turn with user_input := some c } }) ∧
    ((truthy sess.current_turn.user_input
        && truthy sess.current_turn.assistant_output) = true →
      (add_voice_generation st sid "user_transcript" c none).2
        = [{ session_id := sid, user_id := sess.user_id,
             turn_number := sess.turn_count + 1,
             user_input := orPlaceholder sess.current_turn.user_input "No input",
             assistant_output := orPlaceholder sess.current_turn.assistant_output "No output",
             function_calls := sess.current_turn.function_calls }] ∧
      List.lookup sid (add_voice_generation st sid "user_transcript" c none).1.sessions
        = some { user_id := sess.user_id, turn_count := sess.turn_count + 1, current_turn := emptyPendingTurn }) := by
  constructor
  · intro hguard
    rw [add_user_transcript_no_flush st sid c sess hcl hs hguard]
    exact ⟨rfl, lookup_dictSet_self _ _ _⟩
  · intro hguard
    rw [add_user_transcript_flush st sid c sess hcl hs hguard]
    exact ⟨rfl, lookup_dictSet_self _ _ _⟩

/-- C3 counterexample: from a fresh session, the events
`user_transcript "A"` then `user_transcript "C"` emit ZERO turns (the claim
requires two), and the pending turn afterwards holds `"C"` with `"A"`
silently overwritten. -/
theorem voice_double_transcript_counterexample :
    (runVoiceEvents
        { clientInitialized := true,
          sessions := [("s", { user_id := "u", turn_count := 0, current_turn := emptyPendingTurn })] }
        [{ trace_id := "s", event_type := "user_transcript", content := "A", metadata := none },
         { trace_id := "s", event_type := "user_transcript", content := "C", metadata := none }]).2
      = [] ∧
    List.lookup "s"
      (runVoiceEvents
        { clientInitialized := true,
          sessions := [("s", { user_id := "u", turn_count := 0, current_turn := emptyPendingTurn })] }
        [{ trace_id := "s", event_type := "user_transcript", content := "A", metadata := none },
         { trace_id := "s", event_type := "user_transcript", content := "C", metadata := none }]).1.sessions
      = some { user_id := "u", turn_count := 0, current_turn := { user_input := some "C", assistant_output := none, function_calls := [] } } := by
  decide

theorem add_function_call_never_flushes (st₂ : TracingState) (tid c : String)
    (md : Option (List (String × String))) :
    (add_voice_generation st₂ tid "function_call" c md).2 = [] := by
  unfold add_voice_generation
  cases hcl₂ : st₂.clientInitialized
  · simp only [hcl₂, Bool.not_false]
    rw [if_pos (by trivial)]
  · simp only [hcl₂, Bool.not_true]
    rw [if_neg (by simp)]
    cases hl : List.lookup tid st₂.sessions with
    | none => rfl
    | some sess =>
      dsimp only
      rw [if_neg (by decide), if_neg (by decide), if_pos trivial]

/-- C6: from a session with an empty pending turn, the sequence
`user_transcript A`, any function_call events, `assistant_response B`
(with `A`, `B` nonempty) emits exactly one Turn carrying input `A`, output
`B` and the call/result pairs in arrival order; the turn counter is bumped by
exactly one; and a `function_call` event never emits a Turn by itself. -/
theorem voice_turn_aggregation (st : TracingState) (sid A B : String)
    (sess : VoiceSession) (F : List (String × Option (List (String × String))))
    (hcl : st.clientInitialized = true)
    (hs : List.lookup sid st.sessions = some sess)
    (hempty : sess.current_turn = emptyPendingTurn)
    (hA : A ≠ "") (hB : B ≠ "") :
    (runVoiceEvents st
        ({ trace_id := sid, event_type := "user_transcript", content := A, metadata := none } ::
          (F.map (fun f => { trace_id := sid, event_type := "function_call", content := f.1, metadata := f.2 })
            ++ [{ trace_id := sid, event_type := "assistant_response", content := B, metadata := none }]))).2
      = [{ session_id := sid, user_id := sess.user_id, turn_number := sess.turn_count + 1, user_input := A, assistant_output := B, function_calls := F.map (fun f => (f.1, metaResult f.2)) }] ∧
    List.lookup sid (runVoiceEvents st
        ({ trace_id := sid, event_type := "user_transcript", content := A, metadata := none } ::
          (F.map (fun f => { trace_id := sid, event_type := "function_call", content := f.1, metadata := f.2 })
            ++ [{ trace_id := sid, event_type := "assistant_response", content := B, metadata := none }]))).1.sessions
      = some { user_id := sess.user_id, turn_count := sess.turn_count + 1, current_turn := emptyPendingTurn } ∧
    (∀ (st₂ : TracingState) (tid c : String) (md : Option (List (String × String))),
      (add_voice_generation st₂ tid "function_call" c md).2 = []) := by
  have hguard : (truthy sess.current_turn.user_input
      && truthy sess.current_turn.assistant_output) = false := by
    rw [hempty]
    rfl
  have h1 := add_user_transcript_no_flush st sid A sess hcl hs hguard
  rw [hempty] at h1
  have h1x : add_voice_generation st sid "user_transcript" A none
      = ((⟨st.clientInitialized, dictSet st.sessions sid
          ⟨sess.user_id, sess.turn_count, ⟨some A, none, []⟩⟩⟩ : TracingState),
        ([] : List Turn)) := by
    rw [h1]
    rfl
  have hseg := runVoice_function_call_segment sid F
    (⟨st.clientInitialized, dictSet st.sessions sid
      ⟨sess.user_id, sess.turn_count, ⟨some A, none, []⟩⟩⟩ : TracingState)
    (⟨sess.user_id, sess.turn_count, ⟨some A, none, []⟩⟩ : VoiceSession)
    hcl (lookup_dictSet_self _ _ _)
  have hsegx : runVoiceEvents
      (⟨st.clientInitialized, dictSet st.sessions sid
        ⟨sess.user_id, sess.turn_count, ⟨some A, none, []⟩⟩⟩ : TracingState)
      (F.map (fun f => { trace_id := sid, event_type := "function_call", content := f.1, metadata := f.2 }))
      = ((⟨st.clientInitialized, dictSet st.sessions sid
          ⟨sess.user_id, sess.turn_count,
            ⟨some A, none, F.map (fun f => (f.1, metaResult f.2))⟩⟩⟩ : TracingState),
        ([] : List Turn)) := by
    rw [hseg]
    dsimp only
    rw [dictSet_dictSet]
    rfl
  have htr : truthy ((⟨some A, none, F.map (fun f => (f.1, metaResult f.2))⟩ :
      PendingTurn)).user_input = true := by
    have hbe : (A == "") = false := beq_eq_false_iff_ne.mpr hA
    simp [truthy, hbe]
  have h3 := add_assistant_response_flush
    (⟨st.clientInitialized, dictSet st.sessions sid
      ⟨sess.user_id, sess.turn_count,
        ⟨some A, none, F.map (fun f => (f.1, metaResult f.2))⟩⟩⟩ : TracingState)
    sid B
    (⟨sess.user_id, sess.turn_count,
      ⟨some A, none, F.map (fun f => (f.1, metaResult f.2))⟩⟩ : VoiceSession)
    hcl (lookup_dictSet_self _ _ _) htr
  have h3x : add_voice_generation
      (⟨st.clientInitialized, dictSet st.sessions sid
        ⟨sess.user_id, sess.turn_count,
          ⟨some A, none, F.map (fun f => (f.1, metaResult f.2))⟩⟩⟩ : TracingState)
      sid "assistant_response" B none
      = ((⟨st.clientInitialized, dictSet st.sessions sid
          ⟨sess.user_id, sess.turn_count + 1, emptyPendingTurn⟩⟩ : TracingState),
        [⟨sid, sess.user_id, sess.turn_count + 1, A, B,
          F.map (fun f => (f.1, metaResult f.2))⟩]) := by
    rw [h3]
    dsimp only
    rw [dictSet_dictSet, orPlaceholder_some_ne A "No input" hA,
      orPlaceholder_some_ne B "No output" hB]
  have hrun : runVoiceEvents st
      ({ trace_id := sid, event_type := "user_transcript", content := A, metadata := none } ::
        (F.map (fun f => { trace_id := sid, event_type := "function_call", content := f.1, metadata := f.2 })
          ++ [{ trace_id := sid, event_type := "assistant_response", content := B, metadata := none }]))
      = ((⟨st.clientInitialized, dictSet st.sessions sid
          ⟨sess.user_id, sess.turn_count + 1, emptyPendingTurn⟩⟩ : TracingState),
        [⟨sid, sess.user_id, sess.turn_count + 1, A, B,
          F.map (fun f => (f.1, metaResult f.2))⟩]) := by
    simp only [runVoiceEvents]
    rw [h1x]
    dsimp only
    rw [runVoiceEvents_append, hsegx]
    dsimp only
    simp only [runVoiceEvents]
    rw [h3x]
    dsimp only
    simp only [List.nil_append, List.append_nil]
  refine ⟨?_, ?_, add_function_call_never_flushes⟩
  · rw [hrun]
  · rw [hrun]
    exact lookup_dictSet_self _ _ _

/-- C7: ending a session whose pending turn has a (truthy) user input or
assistant output flushes exactly one final Turn with `"No input"` /
`"No output"` placeholders for the missing side; ending a session whose
pending turn has neither emits zero Turns; in both cases the session is
removed from the registry. -/
theorem voice_session_end_flush (st : TracingState) (sid : String)
    (sess : VoiceSession) (d m : Nat)
    (hcl : st.clientInitialized = true)
    (hs : List.lookup sid st.sessions = some sess) :
    ((truthy sess.current_turn.user_input
        || truthy sess.current_turn.assistant_output) = true →
      (end_voice_trace st sid d m).2
        = [{ session_id := sid, user_id := sess.user_id, turn_number := sess.turn_count + 1, user_input := orPlaceholder sess.current_turn.user_input "No input", assistant_output := orPlaceholder sess.current_turn.assistant_output "No output", function_calls := sess.current_turn.function_calls }]) ∧
    ((truthy sess.current_turn.user_input
        || truthy sess.current_turn.assistant_output) = false →
      (end_voice_trace st sid d m).2 = []) ∧
    List.lookup sid (end_voice_trace st sid d m).1.sessions = none := by
  refine ⟨?_, ?_, ?_⟩
  · intro hg
    unfold end_voice_trace
    simp only [hcl, Bool.not_true]
    rw [if_neg (by simp)]
    rw [hs]
    dsimp only
    rw [hg, if_pos rfl]
    unfold flush_turn
    rw [hs]
  · intro hg
    unfold end_voice_trace
    simp only [hcl, Bool.not_true]
    rw [if_neg (by simp)]
    rw [hs]
    dsimp only
    rw [hg]
    rw [if_neg (by simp)]
  · unfold end_voice_trace
    simp only [hcl, Bool.not_true]
    rw [if_neg (by simp)]
    rw [hs]
    dsimp only
    cases hg : (truthy sess.current_turn.user_input
        || truthy sess.current_turn.assistant_output)
    · rw [if_neg (by simp)]
      exact lookup_dictErase_self _ _
    · rw [if_pos rfl]
      unfold flush_turn
      rw [hs]
      dsimp only
      exact lookup_dictErase_self _ _

/-- C10: a voice event or session-end request whose trace id has no started
session, or arriving while the tracing client is uninitialized, mutates
nothing, emits no Turn, and the endpoints still report success. -/
theorem voice_unknown_session_ignored (st : TracingState) (tid etype content : String)
    (md : Option (List (String × String))) (d m : Nat) (enabled : Bool)
    (h : st.clientInitialized = false ∨ List.lookup tid st.sessions = none) :
    add_voice_generation st tid etype content md = (st, []) ∧
    end_voice_trace st tid d m = (st, []) ∧
    log_voice_event enabled st { trace_id := tid, event_type := etype, content := content, metadata := md } = ((st, []), { success := true }) ∧
    end_voice_trace_session enabled st { trace_id := tid, duration_ms := d, message_count := m } = ((st, []), { success := true }) := by
  have hadd : add_voice_generation st tid etype content md = (st, []) := by
    unfold add_voice_generation
    rcases h with h | h
    · simp only [h, Bool.not_false]
      rw [if_pos trivial]
    · cases hcl : st.clientInitialized
      · simp only [Bool.not_false]
        rw [if_pos trivial]
      · simp only [hcl, Bool.not_true]
        rw [if_neg (by simp)]
        rw [h]
  have hend : end_voice_trace st tid d m = (st, []) := by
    unfold end_voice_trace
    rcases h with h | h
    · simp only [h, Bool.not_false]
      rw [if_pos trivial]
    · cases hcl : st.clientInitialized
      · simp only [Bool.not_false]
        rw [if_pos trivial]
      · simp only [hcl, Bool.not_true]
        rw [if_neg (by simp)]
        rw [h]
  refine ⟨hadd, hend, ?_, ?_⟩
  · unfold log_voice_event
    cases enabled
    · simp only [Bool.not_false]
      rw [if_pos trivial]
    · simp only [Bool.not_true]
      rw [if_neg (by simp)]
      rw [hadd]
  · unfold end_voice_trace_session
    cases enabled
    · simp only [Bool.not_false]
      rw [if_pos trivial]
    · simp only [Bool.not_true]
      rw [if_neg (by simp)]
      rw [hend]

/-- C3 (amended) witness: concrete fresh session, second transcript records
without a flush. -/
theorem voice_double_transcript_behavior_witness :
    (add_voice_generation
        { clientInitialized := true,
          sessions := [("s", { user_id := "u", turn_count := 0, current_turn := emptyPendingTurn })] }
        "s" "user_transcript" "C" none).2 = [] :=
  ((voice_double_transcript_behavior _ "s" "C"
    { user_id := "u", turn_count := 0, current_turn := emptyPendingTurn }
    rfl (by decide)).1 (by decide)).1

/-- C6 witness: one function call between transcript and response yields one
Turn with the call/result pair. -/
theorem voice_turn_aggregation_witness :
    (runVoiceEvents
        { clientInitialized := true,
          sessions := [("s", { user_id := "u", turn_count := 0, current_turn := emptyPendingTurn })] }
        ({ trace_id := "s", event_type := "user_transcript", content := "A", metadata := none } ::
          ([("f(1)", some [("result", "r")])].map
              (fun f => { trace_id := "s", event_type := "function_call", content := f.1, metadata := f.2 })
            ++ [{ trace_id := "s", event_type := "assistant_response", content := "B", metadata := none }]))).2
      = [{ session_id := "s", user_id := "u", turn_number := 1, user_input := "A", assistant_output := "B", function_calls := [("f(1)", "r")] }] :=
  (voice_turn_aggregation _ "s" "A" "B"
    { user_id := "u", turn_count := 0, current_turn := emptyPendingTurn }
    [("f(1)", some [("result", "r")])]
    rfl (by decide) rfl (by decide) (by decide)).1

/-- C7 witness: ending a session with a pending user input flushes one Turn
with a placeholder output and removes the session. -/
theorem voice_session_end_flush_witness :
    (end_voice_trace
        { clientInitialized := true,
          sessions := [("s", { user_id := "u", turn_count := 0, current_turn := { user_input := some "hello", assistant_output := none, function_calls := [] } })] }
        "s" 5 2).2
      = [{ session_id := "s", user_id := "u", turn_number := 1, user_input := "hello", assistant_output := "No output", function_calls := [] }] ∧
    List.lookup "s"
      (end_voice_trace
        { clientInitialized := true,
          sessions := [("s", { user_id := "u", turn_count := 0, current_turn := { user_input := some "hello", assistant_output := none, function_calls := [] } })] }
        "s" 5 2).1.sessions = none :=
  ⟨(voice_session_end_flush _ "s"
      { user_id := "u", turn_count := 0, current_turn := { user_input := some "hello", assistant_output := none, function_calls := [] } }
      5 2 rfl (by decide)).1 (by decide),
    (voice_session_end_flush _ "s"
      { user_id := "u", turn_count := 0, current_turn := { user_input := some "hello", assistant_output := none, function_calls := [] } }
      5 2 rfl (by decide)).2.2⟩

/-- C10 witness: an event for an unknown trace id leaves an empty registry
unchanged and the endpoints report success. -/
theorem voice_unknown_session_ignored_witness :
    add_voice_generation { clientInitialized := true, sessions := [] }
        "nope" "user_transcript" "x" none
      = ({ clientInitialized := true, sessions := [] }, []) ∧
    end_voice_trace { clientInitialized := true, sessions := [] } "nope" 3 1
      = ({ clientInitialized := true, sessions := [] }, []) ∧
    log_voice_event true { clientInitialized := true, sessions := [] }
        { trace_id := "nope", event_type := "user_transcript", content := "x", metadata := none }
      = (({ clientInitialized := true, sessions := [] }, []), { success := true }) ∧
    end_voice_trace_session true { clientInitialized := true, sessions := [] }
        { trace_id := "nope", duration_ms := 3, message_count := 1 }
      = (({ clientInitialized := true, sessions := [] }, []), { success := true }) :=
  voice_unknown_session_ignored { clientInitialized := true, sessions := [] }
    "nope" "user_transcript" "x" none 3 1 true (Or.inr (by decide))

/-! ### Streaming answer coordinator

`stream_answer` (src/backend/services/streaming_agent.py) yields the pair
stream consumed by `generate` in src/backend/routes/ask.py.  A run of the
underlying generation is abstracted as the list of text deltas it produced
before completing or raising; `genError = some e` means the generation raised
`e` after yielding exactly `tokens`, and the exception propagates through the
async-for of each consumer (neither function catches it), so items yielded
after the loop are not produced. -/

def stream_answer (tracingActive : Bool) (trace_id : String) (tokens : List String)
    (genError : Option String) : List (String × String) × Option String :=
  ((if tracingActive then
      ("trace_id", trace_id) :: tokens.map (fun t => ("text", t))
    else
      tokens.map (fun t => ("text", t))), genError)

/-- `escaped_chunk = data.replace('\n', '\\n')`. -/
def escapeChunk (s : String) : String := s.replace "\n" "\\n"

/-- The literal completion marker line yielded by `generate`. -/
def doneMarker : String := "data: [DONE]\n\n"

/-- One yielded server-sent-event line of `generate`. -/
def sseLine (cd : String × String) : String :=
  if cd.1 = "trace_id" then "event: trace_id\ndata: " ++ cd.2 ++ "\n\n"
  else "data: " ++ escapeChunk cd.2 ++ "\n\n"

/-- The body generator `generate` of the `/v1/chat` route: it yields one line
per chunk of the answer stream and, only if the async-for completes without
raising, the final `[DONE]` line; an exception from the stream propagates
before the completion marker is reached. -/
def generate (answer : List (String × String) × Option String) :
    List String × Option String :=
  match answer.2 with
  | some err => (answer.1.map sseLine, some err)
  | none => (answer.1.map sseLine ++ [doneMarker], none)

theorem trace_line_ne_done (tid : String) :
    ("event: trace_id\ndata: " ++ tid ++ "\n\n") ≠ doneMarker := by
  intro h
  have hlen := congrArg String.length h
  rw [String.length_append, String.length_append] at hlen
  have h1 : ("event: trace_id\ndata: " : String).length = 22 := by decide
  have h2 : ("\n\n" : String).length = 2 := by decide
  have h3 : doneMarker.length = 14 := by decide
  rw [h1, h2, h3] at hlen
  omega

/-- C2 (amended): when the generation completes without raising, `generate`
emits the `[DONE]` line exactly once, as the last event, even with zero text
fragments (provided no escaped fragment renders as the literal marker line);
when the generation raises mid-stream — including after the trace identifier
was already emitted — the marker is never emitted. -/
theorem streaming_done_marker (tracingActive : Bool) (tid : String)
    (tokens : List String)
    (htok : ∀ t ∈ tokens, ("data: " ++ escapeChunk t ++ "\n\n") ≠ doneMarker) :
    ((generate (stream_answer tracingActive tid tokens none)).1.count doneMarker = 1 ∧
     (generate (stream_answer tracingActive tid tokens none)).1.getLast? = some doneMarker) ∧
    (∀ e : String,
      (generate (stream_answer tracingActive tid tokens (some e))).1.count doneMarker = 0) := by
  have hne : ∀ cd ∈ (stream_answer tracingActive tid tokens none).1,
      sseLine cd ≠ doneMarker := by
    intro cd hcd
    unfold stream_answer at hcd
    dsimp only at hcd
    have htext : ∀ t ∈ tokens, sseLine ("text", t) ≠ doneMarker := by
      intro t ht
      unfold sseLine
      rw [if_neg (by simp)]
      exact htok t ht
    cases tracingActive with
    | true =>
      rw [if_pos rfl] at hcd
      rcases List.mem_cons.mp hcd with h | h
      · subst h
        unfold sseLine
        rw [if_pos rfl]
        exact trace_line_ne_done tid
      · obtain ⟨t, ht, rfl⟩ := List.mem_map.mp h
        exact htext t ht
    | false =>
      rw [if_neg (by simp)] at hcd
      obtain ⟨t, ht, rfl⟩ := List.mem_map.mp hcd
      exact htext t ht
  have hzero : ((stream_answer tracingActive tid tokens none).1.map sseLine).count
      doneMarker = 0 := by
    rw [List.count_eq_zero]
    intro hmem
    obtain ⟨cd, hcd, hline⟩ := List.mem_map.mp hmem
    exact hne cd hcd hline
  refine ⟨⟨?_, ?_⟩, ?_⟩
  · show ((stream_answer tracingActive tid tokens none).1.map sseLine
      ++ [doneMarker]).count doneMarker = 1
    rw [List.count_append, hzero]
    simp
  · show ((stream_answer tracingActive tid tokens none).1.map sseLine
      ++ [doneMarker]).getLast? = some doneMarker
    rw [List.getLast?_concat]
  · intro e
    show ((stream_answer tracingActive tid tokens (some e)).1.map sseLine).count
      doneMarker = 0
    have hsame : (stream_answer tracingActive tid tokens (some e)).1
        = (stream_answer tracingActive tid tokens none).1 := rfl
    rw [hsame]
    exact hzero

/-- C2 witness: tracing active, zero fragments, no error: exactly one
terminal marker. -/
theorem streaming_done_marker_witness :
    (generate (stream_answer true "t" [] none)).1.count doneMarker = 1 :=
  ((streaming_done_marker true "t" [] (by simp)).1).1

/-- C2 counterexample: the generation raises right after the trace identifier
was emitted; the claim requires the `[DONE]` marker to still be emitted
exactly once, but the stream contains the trace event and zero `[DONE]`
lines. -/
theorem streaming_done_counterexample :
    (generate (stream_answer true "tid" [] (some "boom"))).1.count doneMarker = 0 ∧
    ("event: trace_id\ndata: tid\n\n" ∈ (generate (stream_answer true "tid" [] (some "boom"))).1) ∧
    (generate (stream_answer true "tid" [] (some "boom"))).2 = some "boom" := by
  refine ⟨?_, ?_, rfl⟩
  · decide
  · decide

/-! ### Upload job ledger (src/backend/routes/upload)

`upload_jobs` is a dict from job id to a job dict with heterogeneous values,
modelled as an association list over `JVal`.  `setJobField` models
`upload_jobs[job_id][field] = v` (the workers only update jobs created at
submission, so the job id is always present there); the terminal transitions
assign a whole new dict, modelled with `dictSet`.  Each worker is embedded as
a function of its external environment: whether the source already exists,
the streamed chunks, and the point at which an exception (if any) is raised
by a collaborator; every ledger write of the Python worker body appears in
order. -/

inductive JVal
  | s (v : String)
  | n (v : Nat)
deriving DecidableEq

abbrev Job := List (String × JVal)

def setJobField (jobs : List (String × Job)) (job_id field : String) (v : JVal) :
    List (String × Job) :=
  match List.lookup job_id jobs with
  | none => jobs
  | some job => dictSet jobs job_id (dictSet job field v)

/-- Environment of one `process_pdf_upload` run: `chunks` is the stream of
`(page_num, total_pages)` pairs; `failure = some (k, e)` means a collaborator
raised `e` after `k` chunk iterations completed. -/
structure PdfEnv where
  already_exists : Bool
  chunks : List (Nat × Nat)
  failure : Option (Nat × String)
deriving DecidableEq

def process_pdf_upload (jobs : List (String × Job)) (job_id filename : String)
    (env : PdfEnv) : List (String × Job) :=
  let j₁ := setJobField jobs job_id "message"
    (JVal.s "Checking if PDF already exists...")
  if env.already_exists then
    dictSet j₁ job_id [("status", JVal.s "failed"), ("message", JVal.s "PDF already processed"), ("source_id", JVal.s filename), ("error", JVal.s ("PDF " ++ filename ++ " has already been processed and uploaded"))]
  else
    let k := match env.failure with
      | none => env.chunks.length
      | some f => min f.1 env.chunks.length
    let j₂ := ((env.chunks.take k).enum).foldl
      (fun acc ic =>
        setJobField
          (setJobField acc job_id "message"
            (JVal.s ("Processing slide " ++ toString ic.2.1 ++ "/" ++ toString ic.2.2 ++ "...")))
          job_id "chunk_count" (JVal.n (ic.1 + 1)))
      j₁
    match env.failure with
    | some f =>
      dictSet j₂ job_id [("status", JVal.s "failed"), ("message", JVal.s "Processing failed"), ("error", JVal.s f.2)]
    | none =>
      dictSet j₂ job_id [("status", JVal.s "completed"), ("message", JVal.s ("Successfully processed " ++ toString env.chunks.length ++ " slides")), ("source_id", JVal.s filename), ("chunk_count", JVal.n env.chunks.length)]

/-- Environment of one `process_youtube_upload` run. -/
structure YtEnv where
  video_id : Option String
  already_exists : Bool
  transcribe : Except String Nat
  insert_failure : Option String

def process_youtube_upload (jobs : List (String × Job)) (job_id url : String)
    (env : YtEnv) : List (String × Job) :=
  match env.video_id with
  | none =>
    dictSet jobs job_id [("status", JVal.s "failed"), ("message", JVal.s "Could not extract video ID from URL"), ("error", JVal.s ("Invalid YouTube URL: " ++ url))]
  | some vid =>
    let j₁ := setJobField jobs job_id "source_id" (JVal.s vid)
    let j₂ := setJobField j₁ job_id "message"
      (JVal.s "Checking if video already exists...")
    if env.already_exists then
      dictSet j₂ job_id [("status", JVal.s "failed"), ("message", JVal.s "Video already processed"), ("source_id", JVal.s vid), ("error", JVal.s ("Video " ++ vid ++ " has already been transcribed and uploaded"))]
    else
      let j₃ := setJobField j₂ job_id "message"
        (JVal.s "Fetching transcript and creating embeddings...")
      match env.transcribe with
      | Except.error e =>
        dictSet j₃ job_id [("status", JVal.s "failed"), ("message", JVal.s "Processing failed"), ("error", JVal.s e)]
      | Except.ok n =>
        let j₄ := setJobField j₃ job_id "message" (JVal.s "Saving to Supabase...")
        let j₅ := setJobField j₄ job_id "chunk_count" (JVal.n n)
        match env.insert_failure with
        | some e =>
          dictSet j₅ job_id [("status", JVal.s "failed"), ("message", JVal.s "Processing failed"), ("error", JVal.s e)]
        | none =>
          dictSet j₅ job_id [("status", JVal.s "completed"), ("message", JVal.s ("Successfully processed " ++ toString n ++ " chunks")), ("source_id", JVal.s vid), ("chunk_count", JVal.n n)]

theorem lookup_setJobField_other (jobs : List (String × Job)) (id f : String)
    (v : JVal) (j : String) (hj : j ≠ id) :
    List.lookup j (setJobField jobs id f v) = List.lookup j jobs := by
  unfold setJobField
  cases h : List.lookup id jobs with
  | none => rfl
  | some job => exact lookup_dictSet_ne _ _ _ _ hj

theorem lookup_setJobField_self_other_field (jobs : List (String × Job))
    (id f : String) (v : JVal) (g : String) (hg : g ≠ f) :
    List.lookup g ((List.lookup id (setJobField jobs id f v)).getD [])
      = List.lookup g ((List.lookup id jobs).getD []) := by
  unfold setJobField
  cases h : List.lookup id jobs with
  | none => rw [h]
  | some job =>
    rw [lookup_dictSet_self]
    simp only [Option.getD_some]
    exact lookup_dictSet_ne _ _ _ _ hg

theorem lookup_pdf_worker_other (jobs : List (String × Job)) (id filename : String)
    (env : PdfEnv) (j : String) (hj : j ≠ id) :
    List.lookup j (process_pdf_upload jobs id filename env) = List.lookup j jobs := by
  unfold process_pdf_upload
  dsimp only
  have hfold : ∀ (l : List (Nat × (Nat × Nat))) (acc : List (String × Job)),
      List.lookup j (l.foldl
        (fun acc ic =>
          setJobField
            (setJobField acc id "message"
              (JVal.s ("Processing slide " ++ toString ic.2.1 ++ "/" ++ toString ic.2.2 ++ "...")))
            id "chunk_count" (JVal.n (ic.1 + 1)))
        acc) = List.lookup j acc := by
    intro l
    induction l with
    | nil => intro acc; rfl
    | cons ic rest ih =>
      intro acc
      rw [List.foldl_cons, ih]
      rw [lookup_setJobField_other _ _ _ _ _ hj, lookup_setJobField_other _ _ _ _ _ hj]
  split
  · rw [lookup_dictSet_ne _ _ _ _ hj, lookup_setJobField_other _ _ _ _ _ hj]
  · split
    · rw [lookup_dictSet_ne _ _ _ _ hj, hfold, lookup_setJobField_other _ _ _ _ _ hj]
    · rw [lookup_dictSet_ne _ _ _ _ hj, hfold, lookup_setJobField_other _ _ _ _ _ hj]

theorem lookup_yt_worker_other (jobs : List (String × Job)) (id url : String)
    (env : YtEnv) (j : String) (hj : j ≠ id) :
    List.lookup j (process_youtube_upload jobs id url env) = List.lookup j jobs := by
  unfold process_youtube_upload
  cases env.video_id with
  | none => exact lookup_dictSet_ne _ _ _ _ hj
  | some vid =>
    dsimp only
    split
    · rw [lookup_dictSet_ne _ _ _ _ hj, lookup_setJobField_other _ _ _ _ _ hj,
        lookup_setJobField_other _ _ _ _ _ hj]
    · cases env.transcribe with
      | error e =>
        rw [lookup_dictSet_ne _ _ _ _ hj, lookup_setJobField_other _ _ _ _ _ hj,
          lookup_setJobField_other _ _ _ _ _ hj, lookup_setJobField_other _ _ _ _ _ hj]
      | ok n =>
        cases env.insert_failure with
        | some e =>
          rw [lookup_dictSet_ne _ _ _ _ hj, lookup_setJobField_other _ _ _ _ _ hj,
            lookup_setJobField_other _ _ _ _ _ hj, lookup_setJobField_other _ _ _ _ _ hj,
            lookup_setJobField_other _ _ _ _ _ hj, lookup_setJobField_other _ _ _ _ _ hj]
        | none =>
          rw [lookup_dictSet_ne _ _ _ _ hj, lookup_setJobField_other _ _ _ _ _ hj,
            lookup_setJobField_other _ _ _ _ _ hj, lookup_setJobField_other _ _ _ _ _ hj,
            lookup_setJobField_other _ _ _ _ _ hj, lookup_setJobField_other _ _ _ _ _ hj]

/-- C9: every non-terminal update a background upload worker performs on its
job record changes only the named field of that job (all other fields of the
job and every other job in the ledger are untouched), while the terminal
transitions to `completed` or `failed` replace the record wholesale (the
resulting record is exactly the literal dict written by the worker,
regardless of what the record held before). -/
theorem job_ledger_update_frame :
    (∀ (jobs : List (String × Job)) (id f : String) (v : JVal) (j : String), j ≠ id →
      List.lookup j (setJobField jobs id f v) = List.lookup j jobs) ∧
    (∀ (jobs : List (String × Job)) (id f : String) (v : JVal) (g : String), g ≠ f →
      List.lookup g ((List.lookup id (setJobField jobs id f v)).getD [])
        = List.lookup g ((List.lookup id jobs).getD [])) ∧
    (∀ (jobs : List (String × Job)) (id filename : String) (env : PdfEnv) (j : String),
      j ≠ id →
      List.lookup j (process_pdf_upload jobs id filename env) = List.lookup j jobs) ∧
    (∀ (jobs : List (String × Job)) (id url : String) (env : YtEnv) (j : String),
      j ≠ id →
      List.lookup j (process_youtube_upload jobs id url env) = List.lookup j jobs) ∧
    (∀ (jobs : List (String × Job)) (id filename : String) (env : PdfEnv),
      env.already_exists = false → env.failure = none →
      List.lookup id (process_pdf_upload jobs id filename env)
        = some [("status", JVal.s "completed"), ("message", JVal.s ("Successfully processed " ++ toString env.chunks.length ++ " slides")), ("source_id", JVal.s filename), ("chunk_count", JVal.n env.chunks.length)]) ∧
    (∀ (jobs : List (String × Job)) (id filename : String) (env : PdfEnv)
      (fl : Nat × String),
      env.already_exists = false → env.failure = some fl →
      List.lookup id (process_pdf_upload jobs id filename env)
        = some [("status", JVal.s "failed"), ("message", JVal.s "Processing failed"), ("error", JVal.s fl.2)]) ∧
    (∀ (jobs : List (String × Job)) (id url : String) (env : YtEnv) (vid : String)
      (n : Nat),
      env.video_id = some vid → env.already_exists = false →
      env.transcribe = Except.ok n → env.insert_failure = none →
      List.lookup id (process_youtube_upload jobs id url env)
        = some [("status", JVal.s "completed"), ("message", JVal.s ("Successfully processed " ++ toString n ++ " chunks")), ("source_id", JVal.s vid), ("chunk_count", JVal.n n)]) := by
  refine ⟨lookup_setJobField_other, lookup_setJobField_self_other_field,
    lookup_pdf_worker_other, lookup_yt_worker_other, ?_, ?_, ?_⟩
  · intro jobs id filename env ha hf
    unfold process_pdf_upload
    dsimp only
    rw [ha]
    rw [if_neg (by simp)]
    rw [hf]
    dsimp only
    exact lookup_dictSet_self _ _ _
  · intro jobs id filename env fl ha hf
    unfold process_pdf_upload
    dsimp only
    rw [ha]
    rw [if_neg (by simp)]
    rw [hf]
    dsimp only
    exact lookup_dictSet_self _ _ _
  · intro jobs id url env vid n hv ha ht hins
    unfold process_youtube_upload
    rw [hv]
    dsimp only
    rw [ha]
    rw [if_neg (by simp)]
    rw [ht]
    dsimp only
    rw [hins]
    dsimp only
    exact lookup_dictSet_self _ _ _

/-- C9 witness: a two-job ledger; the pdf worker completes its own job
wholesale and leaves the other job untouched; a single-field update keeps the
other fields. -/
theorem job_ledger_update_frame_witness :
    (List.lookup "other"
        (process_pdf_upload
          [("job1", [("status", JVal.s "processing"), ("source_type", JVal.s "pdf")]),
           ("other", [("status", JVal.s "processing")])]
          "job1" "file.pdf"
          { already_exists := false, chunks := [(1, 2), (2, 2)], failure := none })
      = List.lookup "other"
          [("job1", [("status", JVal.s "processing"), ("source_type", JVal.s "pdf")]),
           ("other", [("status", JVal.s "processing")])]) ∧
    (List.lookup "job1"
        (process_pdf_upload
          [("job1", [("status", JVal.s "processing"), ("source_type", JVal.s "pdf")]),
           ("other", [("status", JVal.s "processing")])]
          "job1" "file.pdf"
          { already_exists := false, chunks := [(1, 2), (2, 2)], failure := none })
      = some [("status", JVal.s "completed"), ("message", JVal.s ("Successfully processed " ++ toString ([(1, 2), (2, 2)] : List (Nat × Nat)).length ++ " slides")), ("source_id", JVal.s "file.pdf"), ("chunk_count", JVal.n ([(1, 2), (2, 2)] : List (Nat × Nat)).length)]) ∧
    (List.lookup "status"
        ((List.lookup "job1"
          (setJobField
            [("job1", [("status", JVal.s "processing"), ("source_type", JVal.s "pdf")])]
            "job1" "message" (JVal.s "hi"))).getD [])
      = List.lookup "status"
          ((List.lookup "job1"
            [("job1", [("status", JVal.s "processing"), ("source_type", JVal.s "pdf")])]).getD [])) :=
  ⟨job_ledger_update_frame.2.2.1 _ "job1" "file.pdf" _ "other" (by decide),
    job_ledger_update_frame.2.2.2.2.1 _ "job1" "file.pdf" _ rfl rfl,
    job_ledger_update_frame.2.1 _ "job1" "message" (JVal.s "hi") "status" (by decide)⟩

/-! ### Route-level composition (C4)

`ServerState` bundles the three process-scoped mutable registries.  The
rate-limited handlers of src/backend/routes/ask.py and realtime.py call
`check_rate_limit` as their first statement (their downstream work is
abstracted); the voice-trace routes and the upload routes contain no call to
the rate limiter at all, which their models make visible by never reading or
writing the `limiter` component. -/

structure ServerState where
  limiter : RateLimiter
  tracing : TracingState
  upload_jobs : List (String × Job)

/-- `/v1/chat` (`ask_question` in ask.py): admission check first, then the
streaming body. -/
def ask_question (srv : ServerState) (client_ip : String) (now : ℤ)
    (tracingActive : Bool) (tid : String) (tokens : List String)
    (genError : Option String) :
    Except RateLimitError (List String) × ServerState :=
  match check_rate_limit srv.limiter client_ip now with
  | (CheckResult.reject e, rl) => (Except.error e, { srv with limiter := rl })
  | (CheckResult.allow, rl) =>
    (Except.ok (generate (stream_answer tracingActive tid tokens genError)).1,
      { srv with limiter := rl })

/-- `/v1/search` (`search_notes`): admission check first; the vector search is
an external collaborator. -/
def search_notes (srv : ServerState) (client_ip : String) (now : ℤ) :
    Except RateLimitError Unit × ServerState :=
  match check_rate_limit srv.limiter client_ip now with
  | (CheckResult.reject e, rl) => (Except.error e, { srv with limiter := rl })
  | (CheckResult.allow, rl) => (Except.ok (), { srv with limiter := rl })

/-- `/v1/sessions` (`list_sessions`). -/
def list_sessions (srv : ServerState) (client_ip : String) (now : ℤ) :
    Except RateLimitError Unit × ServerState :=
  match check_rate_limit srv.limiter client_ip now with
  | (CheckResult.reject e, rl) => (Except.error e, { srv with limiter := rl })
  | (CheckResult.allow, rl) => (Except.ok (), { srv with limiter := rl })

/-- `/v1/events` (`get_events`). -/
def get_events (srv : ServerState) (client_ip : String) (now : ℤ) :
    Except RateLimitError Unit × ServerState :=
  match check_rate_limit srv.limiter client_ip now with
  | (CheckResult.reject e, rl) => (Except.error e, { srv with limiter := rl })
  | (CheckResult.allow, rl) => (Except.ok (), { srv with limiter := rl })

/-- `/v1/realtime/session` (`create_realtime_session` in realtime.py). -/
def create_realtime_session (srv : ServerState) (client_ip : String) (now : ℤ) :
    Except RateLimitError Unit × ServerState :=
  match check_rate_limit srv.limiter client_ip now with
  | (CheckResult.reject e, rl) => (Except.error e, { srv with limiter := rl })
  | (CheckResult.allow, rl) => (Except.ok (), { srv with limiter := rl })

/-- `/v1/voice/trace/event`: no admission check appears in the handler. -/
def log_voice_event_srv (langfuse_enabled : Bool) (srv : ServerState)
    (req : VoiceEventRequest) : ServerState × List Turn × VoiceEventResponse :=
  let r := log_voice_event langfuse_enabled srv.tracing req
  ({ srv with tracing := r.1.1 }, r.1.2, r.2)

/-- `/v1/voice/trace/end`: no admission check appears in the handler. -/
def end_voice_trace_srv (langfuse_enabled : Bool) (srv : ServerState)
    (req : VoiceTraceEndRequest) : ServerState × List Turn × VoiceTraceEndResponse :=
  let r := end_voice_trace_session langfuse_enabled srv.tracing req
  ({ srv with tracing := r.1.1 }, r.1.2, r.2)

structure UploadResponse where
  job_id : String
  status : String
  message : String
deriving DecidableEq

/-- `/api/upload/youtube` (`upload_youtube`): API-key protected, not
rate-limited; registers the job and returns immediately. -/
def upload_youtube (srv : ServerState) (job_id vid : String) :
    ServerState × UploadResponse :=
  ({ srv with upload_jobs := (dictSet srv.upload_jobs job_id
      [("status", JVal.s "processing"), ("message", JVal.s "Starting transcription..."), ("source_id", JVal.s vid), ("source_type", JVal.s "youtube")]) },
    { job_id := job_id, status := "processing", message := "Transcription job started" })

/-- C4 (amended): the admission check fronts exactly the chat, search,
sessions, events, and realtime-session handlers — each returns the 429
rejection before any downstream work, leaving the tracing and job registries
untouched — while the voice-trace and upload handlers perform no admission
check at all: they never read or modify the limiter and never reject. -/
theorem admission_check_coverage :
    (∀ (srv : ServerState) (ip : String) (now : ℤ) (ta : Bool) (tid : String)
      (tokens : List String) (genError : Option String) (e : RateLimitError),
      (check_rate_limit srv.limiter ip now).1 = CheckResult.reject e →
      ask_question srv ip now ta tid tokens genError
        = (Except.error e, { srv with limiter := (check_rate_limit srv.limiter ip now).2 })) ∧
    (∀ (srv : ServerState) (ip : String) (now : ℤ) (e : RateLimitError),
      (check_rate_limit srv.limiter ip now).1 = CheckResult.reject e →
      search_notes srv ip now
        = (Except.error e, { srv with limiter := (check_rate_limit srv.limiter ip now).2 })) ∧
    (∀ (srv : ServerState) (ip : String) (now : ℤ) (e : RateLimitError),
      (check_rate_limit srv.limiter ip now).1 = CheckResult.reject e →
      list_sessions srv ip now
        = (Except.error e, { srv with limiter := (check_rate_limit srv.limiter ip now).2 })) ∧
    (∀ (srv : ServerState) (ip : String) (now : ℤ) (e : RateLimitError),
      (check_rate_limit srv.limiter ip now).1 = CheckResult.reject e →
      get_events srv ip now
        = (Except.error e, { srv with limiter := (check_rate_limit srv.limiter ip now).2 })) ∧
    (∀ (srv : ServerState) (ip : String) (now : ℤ) (e : RateLimitError),
      (check_rate_limit srv.limiter ip now).1 = CheckResult.reject e →
      create_realtime_session srv ip now
        = (Except.error e, { srv with limiter := (check_rate_limit srv.limiter ip now).2 })) ∧
    (∀ (enabled : Bool) (srv : ServerState) (req : VoiceEventRequest),
      (log_voice_event_srv enabled srv req).1.limiter = srv.limiter ∧
      (log_voice_event_srv enabled srv req).1.upload_jobs = srv.upload_jobs ∧
      (log_voice_event_srv enabled srv req).2.2.success = true) ∧
    (∀ (enabled : Bool) (srv : ServerState) (req : VoiceTraceEndRequest),
      (end_voice_trace_srv enabled srv req).1.limiter = srv.limiter ∧
      (end_voice_trace_srv enabled srv req).1.upload_jobs = srv.upload_jobs ∧
      (end_voice_trace_srv enabled srv req).2.2.success = true) ∧
    (∀ (srv : ServerState) (job_id vid : String),
      (upload_youtube srv job_id vid).1.limiter = srv.limiter ∧
      (upload_youtube srv job_id vid).1.tracing = srv.tracing ∧
      (upload_youtube srv job_id vid).2.status = "processing") := by
  have hreject : ∀ (srv : ServerState) (ip : String) (now : ℤ) (e : RateLimitError),
      (check_rate_limit srv.limiter ip now).1 = CheckResult.reject e →
      check_rate_limit srv.limiter ip now
        = (CheckResult.reject e, (check_rate_limit srv.limiter ip now).2) := by
    intro srv ip now e h
    rcases hck : check_rate_limit srv.limiter ip now with ⟨r, rl⟩
    rw [hck] at h
    dsimp only at h
    rw [h]
  refine ⟨?_, ?_, ?_, ?_, ?_, ?_, ?_, ?_⟩
  · intro srv ip now ta tid tokens genError e h
    unfold ask_question
    rw [hreject srv ip now e h]
  · intro srv ip now e h
    unfold search_notes
    rw [hreject srv ip now e h]
  · intro srv ip now e h
    unfold list_sessions
    rw [hreject srv ip now e h]
  · intro srv ip now e h
    unfold get_events
    rw [hreject srv ip now e h]
  · intro srv ip now e h
    unfold create_realtime_session
    rw [hreject srv ip now e h]
  · intro enabled srv req
    exact ⟨rfl, rfl, by
      unfold log_voice_event_srv log_voice_event
      cases enabled
      · rfl
      · rfl⟩
  · intro enabled srv req
    exact ⟨rfl, rfl, by
      unfold end_voice_trace_srv end_voice_trace_session
      cases enabled
      · rfl
      · rfl⟩
  · intro srv job_id vid
    exact ⟨rfl, rfl, rfl⟩

/-- C4 counterexample: with the window for identity "c" full, the chat
handler rejects with 429, yet a voice-trace event request is served
successfully, performs its aggregation work, and never consults the limiter
— contradicting the claim that the admission check fronts every endpoint
including the voice-trace and upload endpoints. -/
theorem admission_check_coverage_counterexample :
    (ask_question { limiter := { requests_per_minute := 15, window_seconds := 60, requests := [("c", [41, 42, 43, 44, 45, 46, 47, 48, 49, 50, 51, 52, 53, 54, 55])], last_cleanup := 100 }, tracing := { clientInitialized := true, sessions := [("s", { user_id := "u", turn_count := 0, current_turn := emptyPendingTurn })] }, upload_jobs := [] } "c" 100 false "" [] none).1
      = Except.error { status_code := 429, detail := "Rate limit exceeded. Maximum " ++ toString 15 ++ " requests per minute.", retry_after := 60 } ∧
    (log_voice_event_srv true { limiter := { requests_per_minute := 15, window_seconds := 60, requests := [("c", [41, 42, 43, 44, 45, 46, 47, 48, 49, 50, 51, 52, 53, 54, 55])], last_cleanup := 100 }, tracing := { clientInitialized := true, sessions := [("s", { user_id := "u", turn_count := 0, current_turn := emptyPendingTurn })] }, upload_jobs := [] } { trace_id := "s", event_type := "user_transcript", content := "hi", metadata := none }).2.2.success = true ∧
    (log_voice_event_srv true { limiter := { requests_per_minute := 15, window_seconds := 60, requests := [("c", [41, 42, 43, 44, 45, 46, 47, 48, 49, 50, 51, 52, 53, 54, 55])], last_cleanup := 100 }, tracing := { clientInitialized := true, sessions := [("s", { user_id := "u", turn_count := 0, current_turn := emptyPendingTurn })] }, upload_jobs := [] } { trace_id := "s", event_type := "user_transcript", content := "hi", metadata := none }).1.tracing ≠ ({ limiter := { requests_per_minute := 15, window_seconds := 60, requests := [("c", [41, 42, 43, 44, 45, 46, 47, 48, 49, 50, 51, 52, 53, 54, 55])], last_cleanup := 100 }, tracing := { clientInitialized := true, sessions := [("s", { user_id := "u", turn_count := 0, current_turn := emptyPendingTurn })] }, upload_jobs := [] } : ServerState).tracing ∧
    (log_voice_event_srv true { limiter := { requests_per_minute := 15, window_seconds := 60, requests := [("c", [41, 42, 43, 44, 45, 46, 47, 48, 49, 50, 51, 52, 53, 54, 55])], last_cleanup := 100 }, tracing := { clientInitialized := true, sessions := [("s", { user_id := "u", turn_count := 0, current_turn := emptyPendingTurn })] }, upload_jobs := [] } { trace_id := "s", event_type := "user_transcript", content := "hi", metadata := none }).1.limiter = ({ limiter := { requests_per_minute := 15, window_seconds := 60, requests := [("c", [41, 42, 43, 44, 45, 46, 47, 48, 49, 50, 51, 52, 53, 54, 55])], last_cleanup := 100 }, tracing := { clientInitialized := true, sessions := [("s", { user_id := "u", turn_count := 0, current_turn := emptyPendingTurn })] }, upload_jobs := [] } : ServerState).limiter := by
  refine ⟨rfl, rfl, by decide, rfl⟩

/-- C4 (amended) witness: the saturated chat request rejects through the
handler, and the voice-event handler leaves the limiter untouched. -/
theorem admission_check_coverage_witness :
    (check_rate_limit ({ limiter := { requests_per_minute := 15, window_seconds := 60, requests := [("c", [41, 42, 43, 44, 45, 46, 47, 48, 49, 50, 51, 52, 53, 54, 55])], last_cleanup := 100 }, tracing := { clientInitialized := true, sessions := [("s", { user_id := "u", turn_count := 0, current_turn := emptyPendingTurn })] }, upload_jobs := [] } : ServerState).limiter "c" 100).1
      = CheckResult.reject { status_code := 429, detail := "Rate limit exceeded. Maximum " ++ toString 15 ++ " requests per minute.", retry_after := 60 } ∧
    ask_question { limiter := { requests_per_minute := 15, window_seconds := 60, requests := [("c", [41, 42, 43, 44, 45, 46, 47, 48, 49, 50, 51, 52, 53, 54, 55])], last_cleanup := 100 }, tracing := { clientInitialized := true, sessions := [("s", { user_id := "u", turn_count := 0, current_turn := emptyPendingTurn })] }, upload_jobs := [] } "c" 100 false "" [] none
      = (Except.error { status_code := 429, detail := "Rate limit exceeded. Maximum " ++ toString 15 ++ " requests per minute.", retry_after := 60 },
        { ({ limiter := { requests_per_minute := 15, window_seconds := 60, requests := [("c", [41, 42, 43, 44, 45, 46, 47, 48, 49, 50, 51, 52, 53, 54, 55])], last_cleanup := 100 }, tracing := { clientInitialized := true, sessions := [("s", { user_id := "u", turn_count := 0, current_turn := emptyPendingTurn })] }, upload_jobs := [] } : ServerState) with limiter := (check_rate_limit ({ limiter := { requests_per_minute := 15, window_seconds := 60, requests := [("c", [41, 42, 43, 44, 45, 46, 47, 48, 49, 50, 51, 52, 53, 54, 55])], last_cleanup := 100 }, tracing := { clientInitialized := true, sessions := [("s", { user_id := "u", turn_count := 0, current_turn := emptyPendingTurn })] }, upload_jobs := [] } : ServerState).limiter "c" 100).2 }) ∧
    (log_voice_event_srv true { limiter := { requests_per_minute := 15, window_seconds := 60, requests := [("c", [41, 42, 43, 44, 45, 46, 47, 48, 49, 50, 51, 52, 53, 54, 55])], last_cleanup := 100 }, tracing := { clientInitialized := true, sessions := [("s", { user_id := "u", turn_count := 0, current_turn := emptyPendingTurn })] }, upload_jobs := [] } { trace_id := "s", event_type := "user_transcript", content := "hi", metadata := none }).1.limiter = ({ limiter := { requests_per_minute := 15, window_seconds := 60, requests := [("c", [41, 42, 43, 44, 45, 46, 47, 48, 49, 50, 51, 52, 53, 54, 55])], last_cleanup := 100 }, tracing := { clientInitialized := true, sessions := [("s", { user_id := "u", turn_count := 0, current_turn := emptyPendingTurn })] }, upload_jobs := [] } : ServerState).limiter :=
  ⟨by decide,
    admission_check_coverage.1 { limiter := { requests_per_minute := 15, window_seconds := 60, requests := [("c", [41, 42, 43, 44, 45, 46, 47, 48, 49, 50, 51, 52, 53, 54, 55])], last_cleanup := 100 }, tracing := { clientInitialized := true, sessions := [("s", { user_id := "u", turn_count := 0, current_turn := emptyPendingTurn })] }, upload_jobs := [] } "c" 100 false "" [] none { status_code := 429, detail := "Rate limit exceeded. Maximum " ++ toString 15 ++ " requests per minute.", retry_after := 60 } (by decide),
    (admission_check_coverage.2.2.2.2.2.1 true { limiter := { requests_per_minute := 15, window_seconds := 60, requests := [("c", [41, 42, 43, 44, 45, 46, 47, 48, 49, 50, 51, 52, 53, 54, 55])], last_cleanup := 100 }, tracing := { clientInitialized := true, sessions := [("s", { user_id := "u", turn_count := 0, current_turn := emptyPendingTurn })] }, upload_jobs := [] } { trace_id := "s", event_type := "user_transcript", content := "hi", metadata := none }).1⟩
